import Mathlib

/-!
# Verification of the reservation / group-assignment / credit-settlement core

A shallow embedding of the `users` app of the evenlyf backend
(`src/backend/users/models.py` and `src/backend/users/views.py`).

Conventions of the embedding:

* Calendar dates are integers counting days from an epoch chosen so that
  day `0` is a Monday; thus `d % 7` (Lean's `Int.emod`, which agrees with
  Python's `%` for a positive modulus) is exactly Python's
  `date.weekday()` (`0 = Monday, ..., 6 = Sunday`).
* Instants (`DateTimeField` values) are integers counting seconds from
  midnight of day `0`; `dateTimeAt day h m s` is the instant at
  `h:m:s` on `day`.  `timedelta(days = k)` is `k * 86400` seconds.
* Monetary amounts are integers (the claims only compare them for
  equality, so the `Decimal` scale is irrelevant).
* Each Django model is a structure; the database is the `DB` structure
  holding the rows of every table together with the auto-increment
  counters.  `objects.create` appends a row carrying the next id,
  `save()` on a fetched row writes it back by primary key.
* Each HTTP view `post` method is a function `DB → inputs → resp × DB`;
  the error branches of the view become constructors of the `resp` type.
-/

namespace Evenlyf

/-- Seconds in one day. -/
def secondsPerDay : Int := 86400

/-- The instant `h:m:s` on calendar day `day` (seconds since the epoch). -/
def dateTimeAt (day h m s : Int) : Int :=
  day * secondsPerDay + h * 3600 + m * 60 + s

/-- Python's `date.weekday()` for a day index (epoch day 0 is a Monday). -/
def weekday (day : Int) : Int := day % 7

/-- Status of a `Reservation` (`Reservation.STATUS_CHOICES`). -/
inductive RStatus where
  | PENDING
  | CONFIRMED
  | CANCELLED
  | COMPLETED
deriving DecidableEq, Repr

/-- Status of a `UserTicket` (`TICKET_STATUS_CHOICES`). -/
inductive TStatus where
  | ACTIVE
  | USED
  | EXPIRED
deriving DecidableEq, Repr

/-- Status of a `UserSubscription` (`SUBSCRIPTION_STATUS_CHOICES`). -/
inductive SStatus where
  | ACTIVE
  | EXPIRED
  | CANCELLED
deriving DecidableEq, Repr

/-- Status of a `FriendInvitation` (`FriendInvitation.STATUS_CHOICES`). -/
inductive IStatus where
  | PENDING
  | ACCEPTED
  | EXPIRED
  | USED
deriving DecidableEq, Repr

/-- Row of the `Reservation` table (`users/models.py`). -/
structure Reservation where
  id : Nat
  userId : Nat
  activity_name : String
  activity_description : String
  reservation_date : Int
  reservation_time : Int
  venue_name : String
  venue_address : String
  price_plan : String
  price_amount : Int
  currency : String
  status : RStatus
  stripe_payment_intent_id : String
  paid_at : Option Int
  participants_count : Nat
  special_requests : String
  cancellation_deadline : Option Int
deriving DecidableEq, Repr

/-- Row of the `UserTicket` table. -/
structure UserTicket where
  userId : Nat
  amount : Int
  status : TStatus
  source : String
  original_reservation : Option Nat
  used_for_reservation : Option Nat
  expires_at : Option Int
  used_at : Option Int
  notes : String
deriving DecidableEq, Repr

/-- Row of the `UserSubscription` table (fields the core logic reads). -/
structure UserSubscription where
  id : Nat
  userId : Nat
  status : SStatus
  end_date : Int
  current_reservation : Option Nat
  reservations_used : Nat
deriving DecidableEq, Repr

/-- Row of the `FriendInvitation` table. -/
structure FriendInvitation where
  id : Nat
  inviterId : Nat
  invited_email : String
  invited_user : Option Nat
  invitation_token : String
  reservationId : Nat
  status : IStatus
  message : String
  expires_at : Int
  accepted_at : Option Int
  used_at : Option Int
deriving DecidableEq, Repr

/-- Row of the `EventGroup` table. -/
structure EventGroup where
  id : Nat
  name : String
  event_date : Int
  activity_name : String
  meeting_point_name : String
  meeting_point_address : String
  meeting_time : Int
  max_participants : Nat
  is_confirmed : Bool
deriving DecidableEq, Repr

/-- Row of the `GroupMembership` table. -/
structure GroupMembership where
  reservationId : Nat
  groupId : Nat
deriving DecidableEq, Repr

/-- Row of the `User` table (fields the core logic reads). -/
structure User where
  id : Nat
  email : String
  password : String
  first_name : String
  last_name : String
  email_verified : Bool
  is_invited_user : Bool
  invitation_used : Option Nat
  is_premium : Bool
  premium_until : Option Int
  has_active_subscription : Bool
  account_type : String
deriving DecidableEq, Repr

/-- The whole database: one list of rows per table, in insertion order
(`created_at` order), plus the auto-increment counters. -/
structure DB where
  users : List User
  reservations : List Reservation
  tickets : List UserTicket
  subscriptions : List UserSubscription
  invitations : List FriendInvitation
  groups : List EventGroup
  memberships : List GroupMembership
  nextUserId : Nat
  nextReservationId : Nat
  nextInvitationId : Nat
  nextGroupId : Nat
deriving DecidableEq, Repr

/-- The empty database. -/
def DB.empty : DB :=
  { users := [], reservations := [], tickets := [], subscriptions := [],
    invitations := [], groups := [], memberships := [],
    nextUserId := 0, nextReservationId := 0, nextInvitationId := 0, nextGroupId := 0 }

/-! ## Model methods (`users/models.py`) -/

/-- `Reservation.set_cancellation_deadline` (models.py 555-570): the Tuesday
before the event (the previous Tuesday when the event is itself a Tuesday),
at `23:59` (`time(23, 59)`, i.e. `23:59:00`). -/
def computeCancellationDeadline (eventDate : Int) : Int :=
  let daysBeforeTuesday := (weekday eventDate - 1) % 7
  let tuesdayBefore := eventDate - daysBeforeTuesday
  let tuesdayBefore := if daysBeforeTuesday = 0 then eventDate - 7 else tuesdayBefore
  dateTimeAt tuesdayBefore 23 59 0

/-- `Reservation.save` (models.py 585-589): fills `cancellation_deadline`
from `set_cancellation_deadline` when it is unset. -/
def Reservation.applySaveDefault (r : Reservation) : Reservation :=
  match r.cancellation_deadline with
  | some _ => r
  | none => { r with cancellation_deadline := some (computeCancellationDeadline r.reservation_date) }

/-- `Reservation.is_modifiable` (models.py 542-547). -/
def Reservation.isModifiable (r : Reservation) (now : Int) : Bool :=
  match r.cancellation_deadline with
  | none => false
  | some d => decide (now < d)

/-- `UserTicket.is_valid` (models.py 710-717): active, and expiry (when set)
not strictly in the past. -/
def UserTicket.isValid (t : UserTicket) (now : Int) : Bool :=
  if t.status ≠ TStatus.ACTIVE then false
  else
    match t.expires_at with
    | some e => if now > e then false else true
    | none => true

/-- `UserTicket.use_ticket` (models.py 719-727): raises `ValueError` on an
invalid ticket, otherwise marks it used for the reservation. -/
def UserTicket.useTicket (t : UserTicket) (reservationId : Nat) (now : Int) :
    Except String UserTicket :=
  if ¬ t.isValid now then Except.error "Ce ticket nest pas valide"
  else Except.ok { t with
    status := TStatus.USED
    used_for_reservation := some reservationId
    used_at := some now }

/-- `UserSubscription.is_active` (models.py 788-793). -/
def UserSubscription.isActive (s : UserSubscription) (now : Int) : Bool :=
  if s.status ≠ SStatus.ACTIVE then false else decide (now ≤ s.end_date)

/-- `UserSubscription.release_reservation` (models.py 818-825). -/
def UserSubscription.releaseReservation (s : UserSubscription) : UserSubscription × Bool :=
  match s.current_reservation with
  | some _ => ({ s with current_reservation := none, reservations_used := s.reservations_used - 1 }, true)
  | none => (s, false)

/-- `UserSubscription.use_for_reservation` (models.py 811-816). -/
def UserSubscription.useForReservation (s : UserSubscription) (reservationId : Nat) :
    UserSubscription :=
  { s with current_reservation := some reservationId, reservations_used := s.reservations_used + 1 }

/-- Look up a reservation row by primary key. -/
def DB.findReservation (db : DB) (rid : Nat) : Option Reservation :=
  db.reservations.find? (fun r => decide (r.id = rid))

/-- `UserSubscription.can_make_reservation` (models.py 795-801): active, and
either no current reservation or one that is cancelled/completed. -/
def UserSubscription.canMakeReservation (s : UserSubscription) (db : DB) (now : Int) : Bool :=
  if ¬ s.isActive now then false
  else
    match s.current_reservation with
    | none => true
    | some rid =>
      match db.findReservation rid with
      | some r => decide (r.status = RStatus.CANCELLED ∨ r.status = RStatus.COMPLETED)
      | none => false

/-- `UserSubscription.get_active_subscription` (models.py 827-834):
`filter(status ACTIVE, end_date > now).first()` under the model's
`-created_at` default ordering, i.e. the most recently created match. -/
def DB.getActiveSubscription (db : DB) (uid : Nat) (now : Int) : Option UserSubscription :=
  db.subscriptions.reverse.find? (fun s =>
    decide (s.userId = uid ∧ s.status = SStatus.ACTIVE ∧ s.end_date > now))

/-- `FriendInvitation.is_valid` (models.py 888-894). -/
def FriendInvitation.isValid (inv : FriendInvitation) (now : Int) : Bool :=
  decide (inv.status = IStatus.PENDING ∧ now < inv.expires_at)

/-- `FriendInvitation.can_be_used` (models.py 896-899). -/
def FriendInvitation.canBeUsed (inv : FriendInvitation) : Bool :=
  decide (inv.status = IStatus.ACCEPTED ∧ inv.invited_user ≠ none)

/-- The cutoff checked by `FriendInvitation.create_invitation`
(models.py 920-929): `23:59:59` on the day before the event. -/
def invitationCreationDeadline (eventDate : Int) : Int :=
  dateTimeAt (eventDate - 1) 23 59 59

/-- The expiry stored by `FriendInvitation.create_invitation`
(models.py 934-939): one minute after `23:59:59` on the day before the
event, i.e. `00:00:59` on the event day itself. -/
def invitationExpiry (eventDate : Int) : Int :=
  invitationCreationDeadline eventDate + 60

/-- `FriendInvitation.create_invitation` (models.py 914-950).  The uuid token
is external randomness and is passed in; `invId` is the auto-increment id the
insert would receive.  Returns `none` when the timing gate raises. -/
def createInvitation (inviterId : Nat) (invitedEmail : String) (r : Reservation)
    (message : String) (token : String) (now : Int) (invId : Nat) :
    Option FriendInvitation :=
  if now > invitationCreationDeadline r.reservation_date then none
  else some
    { id := invId
      inviterId := inviterId
      invited_email := invitedEmail
      invited_user := none
      invitation_token := token
      reservationId := r.id
      status := IStatus.PENDING
      message := message
      expires_at := invitationExpiry r.reservation_date
      accepted_at := none
      used_at := none }

/-- Whether the reservation row with the given id exists and is CONFIRMED. -/
def DB.reservationConfirmed (db : DB) (rid : Nat) : Bool :=
  match db.findReservation rid with
  | some r => decide (r.status = RStatus.CONFIRMED)
  | none => false

/-- `EventGroup.participants_count` (models.py 621-624): memberships of the
group whose reservation is CONFIRMED. -/
def DB.participantsCount (db : DB) (gid : Nat) : Nat :=
  (db.memberships.filter (fun m =>
    decide (m.groupId = gid) && db.reservationConfirmed m.reservationId)).length

/-- All memberships of a group, confirmed or not. -/
def DB.membershipCount (db : DB) (gid : Nat) : Nat :=
  (db.memberships.filter (fun m => decide (m.groupId = gid))).length

/-! ## `ReservationCancelView.post` (`users/views.py` 1615-1711) -/

/-- The cancellation cutoff the cancel view computes inline
(views.py 1623-1626): `23:59` on `reservation_date - 2 days`.  The same
formula is used by `CreateReservationWithSubscriptionView` (views.py
2658-2662); it agrees with the Tuesday rule of
`computeCancellationDeadline` only when the event is on a Thursday. -/
def flatCancelDeadline (eventDate : Int) : Int :=
  dateTimeAt (eventDate - 2) 23 59 0

/-- `stripe_payment_intent_id and startswith ticket_` (views.py 1642-1645). -/
def Reservation.wasPaidWithTicket (r : Reservation) : Bool :=
  decide (r.stripe_payment_intent_id ≠ "") && r.stripe_payment_intent_id.startsWith "ticket_"

/-- `stripe_payment_intent_id and startswith subscription_` (views.py 1648-1651). -/
def Reservation.wasPaidWithSubscription (r : Reservation) : Bool :=
  decide (r.stripe_payment_intent_id ≠ "") && r.stripe_payment_intent_id.startsWith "subscription_"

/-- `is_ticket_plan` (views.py 1654). -/
def Reservation.isTicketPlan (r : Reservation) : Bool :=
  decide (r.price_plan = "TICKET")

/-- `should_create_ticket` (views.py 1668), including the enclosing
`if reservation.paid_at` guard (views.py 1640). -/
def Reservation.shouldCreateTicket (r : Reservation) : Bool :=
  r.paid_at.isSome && r.isTicketPlan && !r.wasPaidWithTicket && !r.wasPaidWithSubscription

/-- The replacement ticket the cancel view creates (views.py 1671-1678):
ACTIVE by default, amount equal to the reservation price, source
CANCELLATION, expiring 180 days out. -/
def cancellationTicket (r : Reservation) (now : Int) : UserTicket :=
  { userId := r.userId
    amount := r.price_amount
    status := TStatus.ACTIVE
    source := "CANCELLATION"
    original_reservation := some r.id
    used_for_reservation := none
    expires_at := some (now + 180 * secondsPerDay)
    used_at := none
    notes := "" }

/-- `UserSubscription.objects.filter(user, current_reservation).first()`
followed by `release_reservation()` (views.py 1657-1665); `first()` under
the `-created_at` default ordering is the most recently created match. -/
def DB.releaseSubscriptionFor (db : DB) (uid rid : Nat) : DB :=
  match db.subscriptions.reverse.find? (fun s =>
      decide (s.userId = uid ∧ s.current_reservation = some rid)) with
  | none => db
  | some s =>
    { db with subscriptions := db.subscriptions.map (fun x =>
        if x.id = s.id then (s.releaseReservation).1 else x) }

/-- Write a fetched reservation row back as CANCELLED (`reservation.save()`,
views.py 1694-1696). -/
def DB.saveReservationCancelled (db : DB) (r : Reservation) : DB :=
  { db with reservations := db.reservations.map (fun x =>
      if x.id = r.id then { r with status := RStatus.CANCELLED } else x) }

/-- Responses of `ReservationCancelView.post`. -/
inductive CancelResp where
  | notFound
  | deadlinePassed
  | cancelled (ticket_created : Bool) (ticket_amount : Option Int)
deriving DecidableEq, Repr

/-- `ReservationCancelView.post` (views.py 1615-1711). -/
def reservationCancelPost (db : DB) (uid rid : Nat) (now : Int) : CancelResp × DB :=
  match db.reservations.find? (fun r => decide (r.id = rid ∧ r.userId = uid)) with
  | none => (CancelResp.notFound, db)
  | some r =>
    if now > flatCancelDeadline r.reservation_date then (CancelResp.deadlinePassed, db)
    else
      let db1 := if r.paid_at.isSome && r.wasPaidWithSubscription
                 then db.releaseSubscriptionFor uid r.id else db
      let issue := r.shouldCreateTicket
      let db2 := if issue then { db1 with tickets := db1.tickets ++ [cancellationTicket r now] }
                 else db1
      (CancelResp.cancelled issue (if issue then some r.price_amount else none),
       db2.saveReservationCancelled r)

/-! ## `ConfirmPaymentView.post` (`users/views.py` 846-1048), local branch

The view has two branches: the `pi_test_local_dev` simulation branch
(views.py 867-992), which is complete local logic, and the production
branch (views.py 994-1041), which first performs external network I/O
(`stripe.PaymentIntent.retrieve`) and then likewise unconditionally
creates a fresh CONFIRMED reservation from the intent metadata.  Only the
local branch is embedded; the production branch is reported unmodelled by
the `stripeFlow` response, which carries no state change of its own. -/

/-- The `reservation_data` payload of `ConfirmPaymentView.post`
(views.py 914-930), after date/time parsing. -/
structure ReservationData where
  activity_name : String
  activity_description : String
  reservation_date : Int
  reservation_time : Int
  venue_name : String
  venue_address : String
  price_plan : String
  price_amount : Int
  currency : String
  participants_count : Nat
  special_requests : String
deriving DecidableEq, Repr

/-- Request body of `ConfirmPaymentView.post`. -/
structure ConfirmReq where
  payment_intent_id : String
  status_payment : String
  reservation_data : Option ReservationData
deriving DecidableEq, Repr

/-- Responses of `ConfirmPaymentView.post`. -/
inductive ConfirmResp where
  | missingIntent
  | createdAndPaid (rid : Nat)
  | confirmedExisting (rid : Nat)
  | pendingNotFound
  | stripeFlow
deriving DecidableEq, Repr

/-- `User.has_available_tickets` via `available_tickets`
(models.py 127-135): ACTIVE tickets with `expires_at > now` (a NULL
expiry is excluded by the `__gt` filter). -/
def DB.hasAvailableTickets (db : DB) (uid : Nat) (now : Int) : Bool :=
  db.tickets.any (fun t =>
    decide (t.userId = uid ∧ t.status = TStatus.ACTIVE) &&
    (match t.expires_at with
     | some e => decide (e > now)
     | none => false))

/-- Update the user row with the given id in place. -/
def DB.updateUser (db : DB) (uid : Nat) (f : User → User) : DB :=
  { db with users := db.users.map (fun u => if u.id = uid then f u else u) }

/-- `User.update_subscription_status` (models.py 137-154). -/
def DB.updateSubscriptionStatusOf (db : DB) (uid : Nat) (now : Int) : DB :=
  match db.getActiveSubscription uid now with
  | some s => db.updateUser uid (fun u =>
      { u with has_active_subscription := true, account_type := "SUBSCRIPTION",
               is_premium := true, premium_until := some s.end_date })
  | none =>
    let hasTickets := db.hasAvailableTickets uid now
    db.updateUser uid (fun u =>
      { u with has_active_subscription := false,
               account_type := if hasTickets then "TICKET" else "FREE",
               is_premium := false, premium_until := none })

/-- The ticket created when a `ticket` plan is purchased (views.py 933-945). -/
def purchasedTicket (uid : Nat) (rd : ReservationData) (now : Int) : UserTicket :=
  { userId := uid
    amount := rd.price_amount
    status := TStatus.ACTIVE
    source := "REFUND"
    original_reservation := none
    used_for_reservation := none
    expires_at := some (now + 365 * secondsPerDay)
    used_at := none
    notes := "" }

/-- The reservation row the payload branch inserts (views.py 914-930); note
the row stores the raw `payment_intent_id`, the computed
`final_payment_intent_id` (views.py 907-912) is unused for the insert. -/
def confirmCreatedReservation (db : DB) (uid : Nat) (req : ConfirmReq)
    (rd : ReservationData) (now : Int) : Reservation :=
  Reservation.applySaveDefault
    { id := db.nextReservationId
      userId := uid
      activity_name := rd.activity_name
      activity_description := rd.activity_description
      reservation_date := rd.reservation_date
      reservation_time := rd.reservation_time
      venue_name := rd.venue_name
      venue_address := rd.venue_address
      price_plan := rd.price_plan
      price_amount := rd.price_amount
      currency := rd.currency
      status := RStatus.CONFIRMED
      stripe_payment_intent_id := req.payment_intent_id
      paid_at := some now
      participants_count := rd.participants_count
      special_requests := rd.special_requests
      cancellation_deadline := none }

/-- `ConfirmPaymentView.post`, local-simulation branch (views.py 846-992). -/
def confirmPaymentPost (db : DB) (uid : Nat) (req : ConfirmReq) (now : Int) :
    ConfirmResp × DB :=
  if req.payment_intent_id = "" then (ConfirmResp.missingIntent, db)
  else if req.payment_intent_id = "pi_test_local_dev" ∧ req.status_payment = "succeeded" then
    match req.reservation_data with
    | some rd =>
      let res := confirmCreatedReservation db uid req rd now
      let db1 := { db with reservations := db.reservations ++ [res],
                           nextReservationId := db.nextReservationId + 1 }
      let db2 :=
        if rd.price_plan = "ticket" then
          let dbT := { db1 with tickets := db1.tickets ++ [purchasedTicket uid rd now] }
          dbT.updateSubscriptionStatusOf uid now
        else db1
      (ConfirmResp.createdAndPaid res.id, db2)
    | none =>
      let pending := db.reservations.filter (fun r =>
        decide (r.userId = uid ∧ r.status = RStatus.PENDING))
      match pending.getLast? with
      | none => (ConfirmResp.pendingNotFound, db)
      | some r =>
        let r' := { r with status := RStatus.CONFIRMED, paid_at := some now,
                           stripe_payment_intent_id := req.payment_intent_id }
        (ConfirmResp.confirmedExisting r.id,
         { db with reservations := db.reservations.map (fun x => if x.id = r.id then r' else x) })
  else (ConfirmResp.stripeFlow, db)

/-! ## `CreateGroupView.post` (`users/views.py` 1208-1311) -/

/-- Request body of `CreateGroupView.post`. -/
structure GroupReq where
  name : String
  meeting_point_name : String
  meeting_point_address : String
  meeting_time : Int
  selected_reservations : List Nat
deriving DecidableEq, Repr

/-- Responses of `CreateGroupView.post`. -/
inductive GroupResp where
  | nameRequired
  | meetingPointRequired
  | reservationsRequired
  | noConfirmedFound
  | dateMismatch
  | created (gid : Nat)
deriving DecidableEq, Repr

/-- `queryset.first()` under the `Reservation` default ordering
`(reservation_date, reservation_time)`: the minimum by that key, earlier
row winning ties. -/
def djangoFirstReservation (l : List Reservation) : Option Reservation :=
  match l with
  | [] => none
  | r :: rs => some (rs.foldl (fun best x =>
      if x.reservation_date < best.reservation_date ∨
         (x.reservation_date = best.reservation_date ∧ x.reservation_time < best.reservation_time)
      then x else best) r)

/-- `Reservation.objects.filter(id__in=selected, status CONFIRMED)`
(views.py 1228): ids that are missing or not CONFIRMED simply drop out. -/
def groupFound (db : DB) (req : GroupReq) : List Reservation :=
  db.reservations.filter (fun r =>
    decide (r.id ∈ req.selected_reservations ∧ r.status = RStatus.CONFIRMED))

/-- `CreateGroupView.post` (views.py 1208-1311): silently drops selected ids
that are missing or not CONFIRMED, checks only the date for homogeneity, and
sizes the group by the raw id list. -/
def createGroupPost (db : DB) (req : GroupReq) : GroupResp × DB :=
  if req.name = "" then (GroupResp.nameRequired, db)
  else if req.meeting_point_name = "" then (GroupResp.meetingPointRequired, db)
  else if req.selected_reservations = [] then (GroupResp.reservationsRequired, db)
  else
    let found := groupFound db req
    match djangoFirstReservation found with
    | none => (GroupResp.noConfirmedFound, db)
    | some first =>
      if ¬ found.all (fun r => decide (r.reservation_date = first.reservation_date)) then
        (GroupResp.dateMismatch, db)
      else
        let g : EventGroup :=
          { id := db.nextGroupId
            name := req.name
            event_date := first.reservation_date
            activity_name := first.activity_name
            meeting_point_name := req.meeting_point_name
            meeting_point_address := req.meeting_point_address
            meeting_time := req.meeting_time
            max_participants := req.selected_reservations.length
            is_confirmed := true }
        (GroupResp.created g.id,
         { db with groups := db.groups ++ [g],
                   memberships := db.memberships ++ found.map (fun r =>
                     { reservationId := r.id, groupId := g.id }),
                   nextGroupId := db.nextGroupId + 1 })

/-! ## `AcceptInvitationView.post` (`users/views.py` 2227-2328) -/

/-- Request body of `AcceptInvitationView.post`. -/
structure AcceptReq where
  email : String
  password : String
  first_name : String
  last_name : String
deriving DecidableEq, Repr

/-- Responses of `AcceptInvitationView.post`. -/
inductive AcceptResp where
  | notFound
  | expired
  | missingFields
  | emailMismatch
  | wrongPassword
  | accepted (userId : Nat)
deriving DecidableEq, Repr

/-- `FriendInvitation.mark_as_accepted` written back by id
(models.py 901-906). -/
def DB.markInvitationAccepted (db : DB) (inv : FriendInvitation) (uid : Nat) (now : Int) : DB :=
  { db with invitations := db.invitations.map (fun i =>
      if i.id = inv.id
      then { inv with status := IStatus.ACCEPTED, invited_user := some uid,
                      accepted_at := some now }
      else i) }

/-- `AcceptInvitationView.post` (views.py 2227-2328).  Password hashing and
the auth token are identity-provider plumbing; the stored password stands
for its hash. -/
def acceptInvitationPost (db : DB) (token : String) (req : AcceptReq) (now : Int) :
    AcceptResp × DB :=
  match db.invitations.find? (fun i => decide (i.invitation_token = token)) with
  | none => (AcceptResp.notFound, db)
  | some inv =>
    if ¬ inv.isValid now then (AcceptResp.expired, db)
    else if req.email = "" ∨ req.password = "" ∨ req.first_name = "" ∨ req.last_name = "" then
      (AcceptResp.missingFields, db)
    else if ¬ (req.email.toLower = inv.invited_email.toLower) then
      (AcceptResp.emailMismatch, db)
    else
      match db.users.find? (fun u => decide (u.email = req.email)) with
      | none =>
        let u : User :=
          { id := db.nextUserId
            email := req.email
            password := req.password
            first_name := req.first_name
            last_name := req.last_name
            email_verified := true
            is_invited_user := true
            invitation_used := some inv.id
            is_premium := false
            premium_until := none
            has_active_subscription := false
            account_type := "FREE" }
        let db1 := { db with users := db.users ++ [u], nextUserId := db.nextUserId + 1 }
        (AcceptResp.accepted u.id, db1.markInvitationAccepted inv u.id now)
      | some u =>
        if ¬ (u.password = req.password) then (AcceptResp.wrongPassword, db)
        else
          let db1 :=
            if ¬ u.is_invited_user then
              db.updateUser u.id (fun x =>
                { x with is_invited_user := true, invitation_used := some inv.id })
            else db
          (AcceptResp.accepted u.id, db1.markInvitationAccepted inv u.id now)

/-! ## `ProcessInvitedUserView.post` (`users/views.py` 2382-2440) -/

/-- Responses of `ProcessInvitedUserView.post`.  `internalError` is the
generic 500 handler (an unhandled `MultipleObjectsReturned` or broken
foreign key). -/
inductive ProcessResp where
  | notFound
  | invalidState
  | created (rid : Nat)
  | internalError
deriving DecidableEq, Repr

/-- The cloned PENDING reservation inserted for the invited user
(views.py 2404-2417). -/
def materializedReservation (db : DB) (uid : Nat) (orig : Reservation) : Reservation :=
  Reservation.applySaveDefault
    { id := db.nextReservationId
      userId := uid
      activity_name := orig.activity_name
      activity_description := orig.activity_description
      reservation_date := orig.reservation_date
      reservation_time := orig.reservation_time
      venue_name := orig.venue_name
      venue_address := orig.venue_address
      price_plan := orig.price_plan
      price_amount := orig.price_amount
      currency := orig.currency
      status := RStatus.PENDING
      stripe_payment_intent_id := ""
      paid_at := none
      participants_count := 1
      special_requests := ""
      cancellation_deadline := none }

/-- `ProcessInvitedUserView.post` (views.py 2382-2440).  The lookup is
`objects.get(invited_user, status ACCEPTED)`: no match is a 404, more than
one match raises out of the view. -/
def processInvitedUserPost (db : DB) (uid : Nat) (now : Int) : ProcessResp × DB :=
  match db.invitations.filter (fun i =>
      decide (i.invited_user = some uid ∧ i.status = IStatus.ACCEPTED)) with
  | [] => (ProcessResp.notFound, db)
  | [inv] =>
    if ¬ inv.canBeUsed then (ProcessResp.invalidState, db)
    else
      match db.findReservation inv.reservationId with
      | none => (ProcessResp.internalError, db)
      | some orig =>
        let res := materializedReservation db uid orig
        let db1 := { db with reservations := db.reservations ++ [res],
                             nextReservationId := db.nextReservationId + 1 }
        let db2 := { db1 with invitations := db1.invitations.map (fun i =>
            if i.id = inv.id then { inv with status := IStatus.USED, used_at := some now }
            else i) }
        (ProcessResp.created res.id, db2)
  | _ => (ProcessResp.internalError, db)

/-! ## `CreateReservationWithSubscriptionView.post` (`users/views.py` 2608-2691) -/

/-- Request body of `CreateReservationWithSubscriptionView.post`. -/
structure SubReservationReq where
  activity_name : String
  activity_description : String
  reservation_date : Option Int
  reservation_time : Int
  venue_name : String
  venue_address : String
  participants_count : Nat
  special_requests : String
deriving DecidableEq, Repr

/-- Responses of `CreateReservationWithSubscriptionView.post`. -/
inductive SubResResp where
  | noActiveSubscription
  | alreadyHasReservation
  | dateRequired
  | created (rid : Nat)
deriving DecidableEq, Repr

/-- `CreateReservationWithSubscriptionView.post` (views.py 2608-2691).
The row is first saved with the default Tuesday deadline, which is then
overwritten by the flat `date - 2 days, 23:59` deadline (views.py
2658-2663) and saved again; then the subscription is pointed at it. -/
def createReservationWithSubscriptionPost (db : DB) (uid : Nat)
    (req : SubReservationReq) (now : Int) : SubResResp × DB :=
  match db.getActiveSubscription uid now with
  | none => (SubResResp.noActiveSubscription, db)
  | some sub =>
    if ¬ sub.canMakeReservation db now then (SubResResp.alreadyHasReservation, db)
    else
      match req.reservation_date with
      | none => (SubResResp.dateRequired, db)
      | some d =>
        let res0 := Reservation.applySaveDefault
          { id := db.nextReservationId
            userId := uid
            activity_name := req.activity_name
            activity_description := req.activity_description
            reservation_date := d
            reservation_time := req.reservation_time
            venue_name := req.venue_name
            venue_address := req.venue_address
            price_plan := "SUBSCRIPTION"
            price_amount := 0
            currency := "EUR"
            status := RStatus.CONFIRMED
            stripe_payment_intent_id := "subscription_" ++ toString sub.id
            paid_at := some now
            participants_count := req.participants_count
            special_requests := req.special_requests
            cancellation_deadline := none }
        let res := { res0 with cancellation_deadline := some (flatCancelDeadline d) }
        let db1 := { db with reservations := db.reservations ++ [res],
                             nextReservationId := db.nextReservationId + 1 }
        let db2 := { db1 with subscriptions := db1.subscriptions.map (fun s =>
            if s.id = sub.id then sub.useForReservation res.id else s) }
        (SubResResp.created res.id, db2)

/-! ## System transitions and invariants -/

/-- One request-triggered transition of the system: any modelled view
applied with any inputs, or an invitation inserted by
`FriendInvitation.create_invitation`. -/
inductive Step : DB → DB → Prop where
  | cancel (db : DB) (uid rid : Nat) (now : Int) :
      Step db (reservationCancelPost db uid rid now).2
  | confirmPayment (db : DB) (uid : Nat) (req : ConfirmReq) (now : Int) :
      Step db (confirmPaymentPost db uid req now).2
  | createGroup (db : DB) (req : GroupReq) :
      Step db (createGroupPost db req).2
  | acceptInvitation (db : DB) (token : String) (req : AcceptReq) (now : Int) :
      Step db (acceptInvitationPost db token req now).2
  | materialize (db : DB) (uid : Nat) (now : Int) :
      Step db (processInvitedUserPost db uid now).2
  | subscriptionReserve (db : DB) (uid : Nat) (req : SubReservationReq) (now : Int) :
      Step db (createReservationWithSubscriptionPost db uid req now).2
  | invite (db : DB) (inviterId : Nat) (email : String) (r : Reservation)
      (message token : String) (now : Int) (inv : FriendInvitation) :
      createInvitation inviterId email r message token now db.nextInvitationId = some inv →
      Step db { db with invitations := db.invitations ++ [inv],
                        nextInvitationId := db.nextInvitationId + 1 }

/-- States reachable from the empty database by modelled requests. -/
def Reachable (db : DB) : Prop :=
  Relation.ReflTransGen Step DB.empty db

/-- Primary-key discipline the storage layer guarantees: distinct
reservation ids, and ids below the auto-increment counters. -/
def DB.WF (db : DB) : Prop :=
  (db.reservations.map Reservation.id).Nodup ∧
  (∀ r ∈ db.reservations, r.id < db.nextReservationId) ∧
  (∀ g ∈ db.groups, g.id < db.nextGroupId) ∧
  (∀ m ∈ db.memberships, m.groupId < db.nextGroupId)

/-- The group-capacity invariant, stated for all memberships (confirmed or
not), which bounds `participants_count` from above. -/
def DB.capacityOK (db : DB) : Prop :=
  ∀ g ∈ db.groups, db.membershipCount g.id ≤ g.max_participants

/-! ## Concrete sample data used by closed-form theorems -/

/-- A reservation for a Thursday event (day 3 of the epoch week), paid
directly (raw Stripe reference), with a `TICKET` price plan. -/
def sampleReservation : Reservation :=
  { id := 1
    userId := 7
    activity_name := "Bowling"
    activity_description := ""
    reservation_date := 3
    reservation_time := 72000
    venue_name := "Paris"
    venue_address := ""
    price_plan := "TICKET"
    price_amount := 35
    currency := "EUR"
    status := RStatus.CONFIRMED
    stripe_payment_intent_id := "pi_abc"
    paid_at := some 0
    participants_count := 1
    special_requests := ""
    cancellation_deadline := some (computeCancellationDeadline 3) }

/-- A registered user with no premium subscription. -/
def sampleUser : User :=
  { id := 7
    email := "a@example.com"
    password := "pw"
    first_name := "A"
    last_name := "B"
    email_verified := true
    is_invited_user := false
    invitation_used := none
    is_premium := false
    premium_until := none
    has_active_subscription := false
    account_type := "FREE" }

/-- Repeated invocation of the cancel view on the same reservation. -/
def iterCancel (uid rid : Nat) (now : Int) : Nat → DB → DB
  | 0, db => db
  | n + 1, db => iterCancel uid rid now n (reservationCancelPost db uid rid now).2

/-- A ticket whose expiry instant equals the probing instant. -/
def boundaryTicket : UserTicket :=
  { userId := 7
    amount := 35
    status := TStatus.ACTIVE
    source := "PROMOTIONAL"
    original_reservation := none
    used_for_reservation := none
    expires_at := some 100
    used_at := none
    notes := "" }

/-- A database holding `sampleUser` and `sampleReservation`. -/
def cancelDB : DB :=
  { DB.empty with users := [sampleUser], reservations := [sampleReservation],
                  nextReservationId := 2 }

/-- An always-active subscription of `sampleUser`. -/
def sampleSubscription : UserSubscription :=
  { id := 4, userId := 7, status := SStatus.ACTIVE, end_date := 1000000000,
    current_reservation := none, reservations_used := 0 }

/-- A database where `sampleUser` holds an active subscription. -/
def subPathDB : DB :=
  { DB.empty with users := [sampleUser], subscriptions := [sampleSubscription] }

/-- A subscription-reservation request for a Monday event (day 0). -/
def subPathReq : SubReservationReq :=
  { activity_name := "Bowling", activity_description := "",
    reservation_date := some 0, reservation_time := 72000,
    venue_name := "Paris", venue_address := "", participants_count := 1,
    special_requests := "" }

/-- `sampleReservation` with a non-TICKET price plan, still paid directly. -/
def premiumPlanReservation : Reservation :=
  { sampleReservation with price_plan := "premium" }

/-- A database holding the paid direct-payment `premium`-plan reservation. -/
def premiumPlanDB : DB :=
  { DB.empty with users := [sampleUser], reservations := [premiumPlanReservation],
                  nextReservationId := 2 }

/-- A payment payload purchasing the `ticket` plan for the Thursday event. -/
def localPayData : ReservationData :=
  { activity_name := "Bowling", activity_description := "",
    reservation_date := 3, reservation_time := 72000,
    venue_name := "Paris", venue_address := "", price_plan := "ticket",
    price_amount := 35, currency := "EUR", participants_count := 1,
    special_requests := "" }

/-- A local-simulation confirm request carrying `localPayData`. -/
def localPayReq : ConfirmReq :=
  { payment_intent_id := "pi_test_local_dev", status_payment := "succeeded",
    reservation_data := some localPayData }

/-- The same confirm request without an inline reservation payload. -/
def noPayloadReq : ConfirmReq :=
  { payment_intent_id := "pi_test_local_dev", status_payment := "succeeded",
    reservation_data := none }

/-- A database with only `sampleUser` registered. -/
def userOnlyDB : DB := { DB.empty with users := [sampleUser], nextUserId := 8 }

/-- `sampleReservation` as a not-yet-paid PENDING reservation. -/
def pendingReservation : Reservation :=
  { sampleReservation with status := RStatus.PENDING, paid_at := none,
                           stripe_payment_intent_id := "" }

/-- A database holding one PENDING reservation of `sampleUser`. -/
def pendingDB : DB :=
  { DB.empty with users := [sampleUser], reservations := [pendingReservation],
                  nextReservationId := 2 }

/-- A PENDING invitation to the Thursday event, expiring at the instant the
code computes for day 3, namely day 3 at `00:00:59`. -/
def sampleInvitation : FriendInvitation :=
  { id := 0, inviterId := 7, invited_email := "f@example.com",
    invited_user := none, invitation_token := "tok1", reservationId := 1,
    status := IStatus.PENDING, message := "", expires_at := invitationExpiry 3,
    accepted_at := none, used_at := none }

/-- A database holding `sampleInvitation`. -/
def invitationDB : DB :=
  { DB.empty with invitations := [sampleInvitation], nextUserId := 1,
                  nextInvitationId := 1 }

/-- The accept-request the invited friend would submit. -/
def friendAcceptReq : AcceptReq :=
  { email := "f@example.com", password := "pw2", first_name := "F",
    last_name := "G" }

/-- The inviter's confirmed reservation behind an accepted invitation. -/
def inviterReservation : Reservation :=
  { sampleReservation with id := 2, userId := 3 }

/-- An ACCEPTED invitation already bound to invited user 9. -/
def acceptedInvitation : FriendInvitation :=
  { id := 5, inviterId := 3, invited_email := "f@example.com",
    invited_user := some 9, invitation_token := "tokz", reservationId := 2,
    status := IStatus.ACCEPTED, message := "", expires_at := invitationExpiry 3,
    accepted_at := some 0, used_at := none }

/-- A database ready for the invited user to materialize a reservation. -/
def acceptedInvitationDB : DB :=
  { DB.empty with reservations := [inviterReservation],
                  invitations := [acceptedInvitation], nextReservationId := 10,
                  nextInvitationId := 6 }

/-- A confirmed reservation for day 10 with activity `A`. -/
def groupResA : Reservation :=
  { sampleReservation with id := 1, reservation_date := 10, activity_name := "A" }

/-- A confirmed reservation for day 10 with activity `B`. -/
def groupResB : Reservation :=
  { sampleReservation with id := 2, reservation_date := 10, activity_name := "B" }

/-- A database with the two confirmed day-10 reservations. -/
def groupDB : DB :=
  { DB.empty with reservations := [groupResA, groupResB], nextReservationId := 3,
                  nextGroupId := 50 }

/-- A group request selecting ids 1 and 2 plus the missing id 3. -/
def groupReqABM : GroupReq :=
  { name := "G", meeting_point_name := "M", meeting_point_address := "",
    meeting_time := 72000, selected_reservations := [1, 2, 3] }

/-- A payment payload with a plain (non-ticket) plan, used to build a
reachable state with one confirmed reservation. -/
def reachPayData : ReservationData :=
  { localPayData with price_plan := "premium" }

/-- Confirm request carrying `reachPayData`. -/
def reachPayReq : ConfirmReq :=
  { payment_intent_id := "pi_test_local_dev", status_payment := "succeeded",
    reservation_data := some reachPayData }

/-- Group request selecting the single reservation id 0. -/
def reachGroupReq : GroupReq :=
  { name := "G", meeting_point_name := "M", meeting_point_address := "",
    meeting_time := 72000, selected_reservations := [0] }

/-- State reached from the empty database by one confirmed payment and one
manual group creation. -/
def reachFinalDB : DB :=
  (createGroupPost (confirmPaymentPost DB.empty 7 reachPayReq 0).2 reachGroupReq).2

/-- How every modelled request other than group creation changes the
tables the capacity invariant reads: groups, memberships and the group
counter are untouched, and the reservation-id column is either unchanged
or extended by the fresh auto-increment id. -/
def ShapePreserved (db db2 : DB) : Prop :=
  db2.groups = db.groups ∧ db2.memberships = db.memberships
  ∧ db2.nextGroupId = db.nextGroupId
  ∧ ((db2.reservations.map Reservation.id = db.reservations.map Reservation.id
        ∧ db2.nextReservationId = db.nextReservationId)
     ∨ (db2.reservations.map Reservation.id
          = db.reservations.map Reservation.id ++ [db.nextReservationId]
        ∧ db2.nextReservationId = db.nextReservationId + 1))

/-! # Theorems -/

/-! ## Ticket validity and single use (C7) -/

/-- C7 counterexample: the claim says a ticket is valid only when `now` is
strictly before its expiry, but `boundaryTicket` (an ACTIVE ticket expiring
at instant 100) is still reported valid by the code at `now = 100` exactly,
because `UserTicket.is_valid` rejects only `now > expires_at`. -/
theorem c7_ticket_valid_at_expiry_instant :
    boundaryTicket.isValid 100 = true ∧
    boundaryTicket.expires_at = some 100 ∧
    ¬ ((100 : Int) < 100) := by
  refine ⟨rfl, rfl, by omega⟩

/-- C7 (amended): a ticket is valid iff it is ACTIVE and has no expiry or
`now ≤ expiry` (validity persists through the expiry instant itself); using
a valid ticket marks it USED and stamps `used_at` and
`used_for_reservation`; using an invalid ticket raises and changes nothing;
a ticket just used is no longer valid, so a second use raises. -/
theorem ticket_validity_and_single_use (t : UserTicket) (rid : Nat) (now : Int) :
    (t.isValid now = true ↔
      (t.status = TStatus.ACTIVE ∧
        (t.expires_at = none ∨ ∃ e, t.expires_at = some e ∧ now ≤ e)))
    ∧ (t.isValid now = true →
        t.useTicket rid now = Except.ok
          { t with status := TStatus.USED, used_for_reservation := some rid,
                   used_at := some now })
    ∧ (t.isValid now = false →
        t.useTicket rid now = Except.error "Ce ticket nest pas valide")
    ∧ (∀ t', t.useTicket rid now = Except.ok t' → ∀ rid2 now2,
        t'.useTicket rid2 now2 = Except.error "Ce ticket nest pas valide") := by
  have hvalid : t.isValid now = true ↔
      (t.status = TStatus.ACTIVE ∧
        (t.expires_at = none ∨ ∃ e, t.expires_at = some e ∧ now ≤ e)) := by
    unfold UserTicket.isValid
    rcases t with ⟨u, a, st, so, orr, ufr, ex, ua, no⟩
    cases st <;> cases ex <;> simp
  refine ⟨hvalid, ?_, ?_, ?_⟩
  · intro h
    unfold UserTicket.useTicket
    rw [h]
    simp
  · intro h
    unfold UserTicket.useTicket
    rw [h]
    simp
  · intro t' h rid2 now2
    unfold UserTicket.useTicket at h
    split at h
    · exact absurd h (by simp)
    · injection h with h
      subst h
      unfold UserTicket.useTicket UserTicket.isValid
      simp

/-- Witness for the amended C7 theorem: using the concrete still-valid
`boundaryTicket` at its expiry instant succeeds and marks it USED. -/
theorem ticket_validity_and_single_use_witness :
    boundaryTicket.useTicket 5 100 = Except.ok
      { boundaryTicket with status := TStatus.USED, used_for_reservation := some 5,
                            used_at := some 100 } :=
  (ticket_validity_and_single_use boundaryTicket 5 100).2.1 rfl

/-! ## Cancellation-deadline algorithm (C2) -/

/-- C2 counterexample: for the Thursday event on day 3 the stored deadline is
the Tuesday (day 1) at `23:59:00`, not `23:59:59` as claimed; and the
subscription creation path stores `(event - 2 days) 23:59:00` for a Monday
event (day 0), which falls on a Saturday (weekday 5), not on a Tuesday. -/
theorem c2_deadline_counterexample :
    computeCancellationDeadline 3 = dateTimeAt 1 23 59 0
    ∧ dateTimeAt 1 23 59 0 ≠ dateTimeAt 1 23 59 59
    ∧ ((createReservationWithSubscriptionPost subPathDB 7 subPathReq 0).2.reservations.map
        Reservation.cancellation_deadline) = [some (dateTimeAt (-2) 23 59 0)]
    ∧ weekday (-2) ≠ 1 := by
  decide

/-- C2 (amended): the default save path stores `23:59:00` (not `23:59:59`)
on the Tuesday at least 1 and at most 7 days before the event, equal to
`event - 7 days` when the event is itself a Tuesday; reservations created by
the payment-confirmation payload path get exactly that deadline; but the
subscription creation path overwrites the stored deadline with the flat
`event - 2 days, 23:59:00` instant, which lies on a Tuesday only for
Thursday events. -/
theorem cancellation_deadline_algorithm :
    (∀ D : Int, ∃ t : Int,
      computeCancellationDeadline D = dateTimeAt t 23 59 0 ∧
      weekday t = 1 ∧ D - 7 ≤ t ∧ t ≤ D - 1 ∧
      (weekday D = 1 → t = D - 7))
    ∧ (∀ db uid req rd now,
        (confirmCreatedReservation db uid req rd now).cancellation_deadline
          = some (computeCancellationDeadline rd.reservation_date))
    ∧ (∀ db uid req now d rid db2,
        req.reservation_date = some d →
        createReservationWithSubscriptionPost db uid req now = (SubResResp.created rid, db2) →
        (db2.reservations.getLast?).map Reservation.cancellation_deadline
          = some (some (flatCancelDeadline d))) := by
  refine ⟨?_, ?_, ?_⟩
  · intro D
    by_cases h : (D % 7 - 1) % 7 = 0
    · refine ⟨D - 7, ?_, ?_, by omega, by omega, fun _ => rfl⟩
      · simp only [computeCancellationDeadline, weekday, if_pos h]
      · unfold weekday; omega
    · refine ⟨D - (D % 7 - 1) % 7, ?_, ?_, by omega, by omega, ?_⟩
      · simp only [computeCancellationDeadline, weekday, if_neg h]
      · unfold weekday; omega
      · intro hD; exfalso; unfold weekday at hD; omega
  · intro db uid req rd now
    rfl
  · intro db uid req now d rid db2 hd h
    unfold createReservationWithSubscriptionPost at h
    rw [hd] at h
    split at h
    · simp at h
    · split at h
      · simp at h
      · rw [Prod.mk.injEq] at h
        obtain ⟨h1, h2⟩ := h
        subst h2
        simp [List.getLast?_concat]

/-- Witness for the amended C2 theorem: the subscription-path clause applied
to the concrete Monday-event run. -/
theorem cancellation_deadline_algorithm_witness :
    ((createReservationWithSubscriptionPost subPathDB 7 subPathReq 0).2.reservations.getLast?).map
        Reservation.cancellation_deadline = some (some (flatCancelDeadline 0)) :=
  cancellation_deadline_algorithm.2.2 subPathDB 7 subPathReq 0 0 0 _ rfl rfl

/-! ## Invitation expiry (C5) -/

/-- C5 counterexample: an invitation created for the Thursday event on day 3
expires at day 3 `00:00:59` (one minute after `23:59:59` on day 2), not at
`00:00` of the preceding Wednesday (day 2) as the claim states. -/
theorem c5_invitation_expiry_counterexample :
    (createInvitation 7 "f@example.com" sampleReservation "hi" "tok1" 0 0).map
        FriendInvitation.expires_at = some (dateTimeAt 3 0 0 59)
    ∧ dateTimeAt 3 0 0 59 ≠ dateTimeAt 2 0 0 0
    ∧ weekday 2 = 2 := by
  decide

/-- C5 (amended): every created invitation expires at `00:00:59` on the
occurrence day itself (one minute past `23:59:59` of the previous day) and
starts PENDING with no bound user; `is_valid` holds iff the invitation is
PENDING and `now` is strictly before `expires_at`; and accepting at or after
`expires_at` fails with the expiry error and leaves the database unchanged,
so no user is bound and the status never becomes ACCEPTED. -/
theorem invitation_expiry_and_acceptance :
    (∀ (inviter : Nat) (email : String) (r : Reservation) (msg tok : String)
        (now : Int) (invId : Nat) (inv : FriendInvitation),
      createInvitation inviter email r msg tok now invId = some inv →
      inv.expires_at = dateTimeAt r.reservation_date 0 0 59 ∧
      inv.status = IStatus.PENDING ∧ inv.invited_user = none)
    ∧ (∀ (inv : FriendInvitation) (now : Int),
        inv.isValid now = true ↔ (inv.status = IStatus.PENDING ∧ now < inv.expires_at))
    ∧ (∀ (db : DB) (tok : String) (req : AcceptReq) (now : Int) (inv : FriendInvitation),
        db.invitations.find? (fun i => decide (i.invitation_token = tok)) = some inv →
        now ≥ inv.expires_at →
        acceptInvitationPost db tok req now = (AcceptResp.expired, db)) := by
  refine ⟨?_, ?_, ?_⟩
  · intro inviter email r msg tok now invId inv h
    unfold createInvitation at h
    split at h
    · simp at h
    · injection h with h
      subst h
      refine ⟨?_, rfl, rfl⟩
      show invitationExpiry r.reservation_date = _
      unfold invitationExpiry invitationCreationDeadline dateTimeAt secondsPerDay
      ring
  · intro inv now
    unfold FriendInvitation.isValid
    simp
  · intro db tok req now inv hfind hle
    unfold acceptInvitationPost
    rw [hfind]
    dsimp only
    rw [if_pos]
    simp [FriendInvitation.isValid]
    omega

/-- Witness for the amended C5 theorem: accepting the concrete PENDING
invitation exactly at its expiry instant is rejected and changes nothing. -/
theorem invitation_expiry_and_acceptance_witness :
    acceptInvitationPost invitationDB "tok1" friendAcceptReq (invitationExpiry 3)
      = (AcceptResp.expired, invitationDB) :=
  invitation_expiry_and_acceptance.2.2 invitationDB "tok1" friendAcceptReq
    (invitationExpiry 3) sampleInvitation rfl (by decide)

/-! ## Cancel gating (C3) -/

/-- C3 counterexample: `sampleReservation` stores the Tuesday deadline
`day 1, 23:59:00`; invoking the cancel view exactly at that instant (so
`now ≥ cancellation_deadline` holds and the claim demands a
deadline-passed failure) nevertheless succeeds and even issues a ticket,
because the view re-derives the deadline as `date - 2 days` and rejects
only `now > deadline` strictly. -/
theorem c3_cancel_at_deadline_counterexample :
    (reservationCancelPost cancelDB 7 1 (dateTimeAt 1 23 59 0)).1
      = CancelResp.cancelled true (some 35)
    ∧ sampleReservation.cancellation_deadline = some (dateTimeAt 1 23 59 0)
    ∧ dateTimeAt 1 23 59 0 ≥ dateTimeAt 1 23 59 0 := by
  decide

/-- C3 (amended): for an existing reservation of the calling user, the
cancel view fails with the deadline-passed error iff `now` is strictly
after the flat `date - 2 days, 23:59:00` deadline it recomputes from the
event date (it never reads the stored `cancellation_deadline`), and a
failed cancel leaves the database entirely unchanged. -/
theorem cancel_gating (db : DB) (uid rid : Nat) (now : Int) (r : Reservation)
    (hfind : db.reservations.find? (fun x => decide (x.id = rid ∧ x.userId = uid)) = some r) :
    ((reservationCancelPost db uid rid now).1 = CancelResp.deadlinePassed ↔
      now > flatCancelDeadline r.reservation_date)
    ∧ ((reservationCancelPost db uid rid now).1 = CancelResp.deadlinePassed →
        (reservationCancelPost db uid rid now).2 = db) := by
  unfold reservationCancelPost
  rw [hfind]
  dsimp only
  split_ifs with h <;> simp [h]

/-- Witness for the amended C3 theorem: cancelling the concrete reservation
well after the deadline is rejected and leaves the database unchanged. -/
theorem cancel_gating_witness :
    (reservationCancelPost cancelDB 7 1 200000).1 = CancelResp.deadlinePassed
    ∧ (reservationCancelPost cancelDB 7 1 200000).2 = cancelDB :=
  have h := cancel_gating cancelDB 7 1 200000 sampleReservation rfl
  ⟨h.1.mpr (by decide), h.2 (h.1.mpr (by decide))⟩

/-! ## Cancellation refund policy (C1) -/

/-- After `release_reservation` under uniqueness of the paying subscription,
no subscription of the user still points at the cancelled reservation. -/
theorem release_clears (db : DB) (uid rid : Nat)
    (huniq : ∀ s ∈ db.subscriptions, ∀ s2 ∈ db.subscriptions,
      (s.userId = uid ∧ s.current_reservation = some rid) →
      (s2.userId = uid ∧ s2.current_reservation = some rid) → s.id = s2.id) :
    ∀ s ∈ (db.releaseSubscriptionFor uid rid).subscriptions,
      ¬ (s.userId = uid ∧ s.current_reservation = some rid) := by
  unfold DB.releaseSubscriptionFor
  cases hf : db.subscriptions.reverse.find? (fun s =>
      decide (s.userId = uid ∧ s.current_reservation = some rid)) with
  | none =>
    intro s hs
    have := List.find?_eq_none.1 hf s (by simpa [List.mem_reverse] using hs)
    simpa using this
  | some s0 =>
    have hs0p : (s0.userId = uid ∧ s0.current_reservation = some rid) := by
      have := List.find?_some hf
      simpa using this
    have hs0m : s0 ∈ db.subscriptions := by
      have := List.mem_of_find?_eq_some hf
      simpa [List.mem_reverse] using this
    intro s hs
    dsimp at hs
    rcases List.mem_map.1 hs with ⟨x, hx, hxe⟩
    by_cases hid : x.id = s0.id
    · rw [if_pos hid] at hxe
      subst hxe
      unfold UserSubscription.releaseReservation
      rw [hs0p.2]
      simp
    · rw [if_neg hid] at hxe
      subst hxe
      intro hp
      exact hid (huniq x hx s0 hs0m hp hs0p)

/-- Releasing a subscription does not touch the tickets table. -/
theorem release_tickets_eq (db : DB) (uid rid : Nat) :
    (db.releaseSubscriptionFor uid rid).tickets = db.tickets := by
  unfold DB.releaseSubscriptionFor
  cases hf : db.subscriptions.reverse.find? (fun s =>
      decide (s.userId = uid ∧ s.current_reservation = some rid)) <;> rfl

/-- C1 counterexample: `premiumPlanReservation` is paid, its settlement
reference starts with neither `ticket_` nor `subscription_`, and the
cancellation happens before the deadline, so the claim demands a
replacement ticket; the code issues none because the price plan is
`premium`, not `TICKET`. -/
theorem c1_refund_policy_counterexample :
    (reservationCancelPost premiumPlanDB 7 1 0).1 = CancelResp.cancelled false none
    ∧ (reservationCancelPost premiumPlanDB 7 1 0).2.tickets = []
    ∧ premiumPlanReservation.paid_at.isSome = true
    ∧ premiumPlanReservation.stripe_payment_intent_id.startsWith "ticket_" = false
    ∧ premiumPlanReservation.stripe_payment_intent_id.startsWith "subscription_" = false
    ∧ ¬ ((0 : Int) > flatCancelDeadline premiumPlanReservation.reservation_date) := by
  decide

/-- C1 (amended): when a reservation of the calling user is cancelled before
the deadline, a replacement ticket is issued iff the reservation was paid
AND its price plan is exactly `TICKET` AND the settlement reference starts
with neither `ticket_` nor `subscription_`; when issued it is exactly one
ACTIVE ticket of amount `price_amount`; and when the settlement reference
marks a subscription and the paying subscription is unique, its
`current_reservation` is cleared. -/
theorem cancel_refund_policy (db : DB) (uid rid : Nat) (now : Int) (r : Reservation)
    (hfind : db.reservations.find? (fun x => decide (x.id = rid ∧ x.userId = uid)) = some r)
    (hnow : ¬ now > flatCancelDeadline r.reservation_date)
    (huniq : ∀ s ∈ db.subscriptions, ∀ s2 ∈ db.subscriptions,
      (s.userId = uid ∧ s.current_reservation = some r.id) →
      (s2.userId = uid ∧ s2.current_reservation = some r.id) → s.id = s2.id) :
    ((reservationCancelPost db uid rid now).2.tickets
        = if r.shouldCreateTicket then db.tickets ++ [cancellationTicket r now] else db.tickets)
    ∧ (r.shouldCreateTicket = true ↔
        (r.paid_at ≠ none ∧ r.price_plan = "TICKET" ∧
         r.wasPaidWithTicket = false ∧ r.wasPaidWithSubscription = false))
    ∧ (cancellationTicket r now).status = TStatus.ACTIVE
    ∧ (cancellationTicket r now).amount = r.price_amount
    ∧ ((reservationCancelPost db uid rid now).1
        = CancelResp.cancelled r.shouldCreateTicket
            (if r.shouldCreateTicket then some r.price_amount else none))
    ∧ (r.paid_at.isSome = true → r.wasPaidWithSubscription = true →
        ∀ s ∈ (reservationCancelPost db uid rid now).2.subscriptions,
          ¬ (s.userId = uid ∧ s.current_reservation = some r.id)) := by
  have hiff : (r.shouldCreateTicket = true ↔
      (r.paid_at ≠ none ∧ r.price_plan = "TICKET" ∧
       r.wasPaidWithTicket = false ∧ r.wasPaidWithSubscription = false)) := by
    simp [Reservation.shouldCreateTicket, Reservation.isTicketPlan,
      Option.isSome_iff_ne_none, Bool.and_eq_true, Bool.not_eq_true', and_assoc]
  unfold reservationCancelPost
  rw [hfind]
  dsimp only
  rw [if_neg hnow]
  refine ⟨?_, hiff, rfl, rfl, rfl, ?_⟩
  · by_cases hissue : r.shouldCreateTicket = true <;>
      by_cases hsub : (r.paid_at.isSome && r.wasPaidWithSubscription) = true <;>
      simp [hissue, hsub, DB.saveReservationCancelled, release_tickets_eq]
  · intro hp hw s hs
    have hsub : (r.paid_at.isSome && r.wasPaidWithSubscription) = true := by
      rw [hp, hw]; rfl
    have hissue : r.shouldCreateTicket = false := by
      simp [Reservation.shouldCreateTicket, hw]
    simp [hsub, hissue, DB.saveReservationCancelled] at hs
    exact release_clears db uid r.id huniq s hs

/-- Witness for the amended C1 theorem: cancelling the paid direct-payment
`TICKET`-plan `sampleReservation` before the deadline creates exactly its
replacement ticket. -/
theorem cancel_refund_policy_witness :
    (reservationCancelPost cancelDB 7 1 0).2.tickets = [cancellationTicket sampleReservation 0] := by
  have h := cancel_refund_policy cancelDB 7 1 0 sampleReservation rfl (by decide) (by decide)
  rw [h.1]
  decide

/-! ## Cancellation has no lifecycle-status precondition (C10) -/

/-- Releasing a subscription does not touch the reservations table. -/
theorem release_reservations_eq (db : DB) (uid rid : Nat) :
    (db.releaseSubscriptionFor uid rid).reservations = db.reservations := by
  unfold DB.releaseSubscriptionFor
  cases hf : db.subscriptions.reverse.find? (fun s =>
      decide (s.userId = uid ∧ s.current_reservation = some rid)) <;> rfl

/-- Shape of a successful (pre-deadline) cancel: the response, the pointwise
status update of the reservations table, and the ticket-count change. -/
theorem cancel_post_shape (db : DB) (uid rid : Nat) (now : Int) (r : Reservation)
    (hfind : db.reservations.find? (fun x => decide (x.id = rid ∧ x.userId = uid)) = some r)
    (hnow : ¬ now > flatCancelDeadline r.reservation_date) :
    (reservationCancelPost db uid rid now).1
        = CancelResp.cancelled r.shouldCreateTicket
            (if r.shouldCreateTicket then some r.price_amount else none)
    ∧ (reservationCancelPost db uid rid now).2.reservations
        = db.reservations.map (fun x => if x.id = r.id then { r with status := RStatus.CANCELLED } else x)
    ∧ (reservationCancelPost db uid rid now).2.tickets.length
        = db.tickets.length + (if r.shouldCreateTicket then 1 else 0) := by
  unfold reservationCancelPost
  rw [hfind]
  dsimp only
  rw [if_neg hnow]
  refine ⟨rfl, ?_, ?_⟩
  · by_cases hsub : (r.paid_at.isSome && r.wasPaidWithSubscription) = true <;>
      by_cases hissue : r.shouldCreateTicket = true <;>
      simp [hsub, hissue, DB.saveReservationCancelled, release_reservations_eq]
  · by_cases hsub : (r.paid_at.isSome && r.wasPaidWithSubscription) = true <;>
      by_cases hissue : r.shouldCreateTicket = true <;>
      simp [hsub, hissue, DB.saveReservationCancelled, release_tickets_eq]

/-- The cancel view's lookup still finds the reservation (now CANCELLED)
after the status write-back. -/
theorem find?_cancel_update (l : List Reservation) (rid uid : Nat) (r : Reservation)
    (h : l.find? (fun x => decide (x.id = rid ∧ x.userId = uid)) = some r) :
    (l.map (fun x => if x.id = r.id then { r with status := RStatus.CANCELLED } else x)).find?
      (fun x => decide (x.id = rid ∧ x.userId = uid))
      = some { r with status := RStatus.CANCELLED } := by
  have hr : (r.id = rid ∧ r.userId = uid) := by simpa using List.find?_some h
  induction l with
  | nil => simp at h
  | cons a t ih =>
    by_cases ha : (a.id = rid ∧ a.userId = uid)
    · rw [List.find?_cons_of_pos _ (by simpa using ha)] at h
      injection h with h
      subst h
      rw [List.map_cons, if_pos rfl]
      exact List.find?_cons_of_pos _ (by simpa using hr)
    · rw [List.find?_cons_of_neg _ (by simpa using ha)] at h
      rw [List.map_cons]
      by_cases hid : a.id = r.id
      · rw [if_pos hid]
        exact List.find?_cons_of_pos _ (by simpa using hr)
      · rw [if_neg hid]
        rw [List.find?_cons_of_neg _ (by simpa using ha)]
        exact ih h

/-- Iterating the cancel view mints one ticket per call on a
ticket-refundable reservation and keeps the reservation findable. -/
theorem iter_cancel_aux (uid rid : Nat) (now : Int) :
    ∀ (n : Nat) (db : DB) (r : Reservation),
      db.reservations.find? (fun x => decide (x.id = rid ∧ x.userId = uid)) = some r →
      ¬ now > flatCancelDeadline r.reservation_date →
      r.shouldCreateTicket = true →
      (iterCancel uid rid now n db).tickets.length = db.tickets.length + n
      ∧ (iterCancel uid rid now n db).reservations.find?
          (fun x => decide (x.id = rid ∧ x.userId = uid))
          = some (if n = 0 then r else { r with status := RStatus.CANCELLED }) := by
  intro n
  induction n with
  | zero =>
    intro db r hfind hnow hissue
    exact ⟨rfl, by simpa using hfind⟩
  | succ k ih =>
    intro db r hfind hnow hissue
    have hshape := cancel_post_shape db uid rid now r hfind hnow
    have hfind1 : ((reservationCancelPost db uid rid now).2).reservations.find?
        (fun x => decide (x.id = rid ∧ x.userId = uid))
        = some { r with status := RStatus.CANCELLED } := by
      rw [hshape.2.1]
      exact find?_cancel_update db.reservations rid uid r hfind
    have hnow1 : ¬ now > flatCancelDeadline ({ r with status := RStatus.CANCELLED }).reservation_date := hnow
    have hissue1 : ({ r with status := RStatus.CANCELLED }).shouldCreateTicket = true := hissue
    have hk := ih ((reservationCancelPost db uid rid now).2) _ hfind1 hnow1 hissue1
    constructor
    · show (iterCancel uid rid now k (reservationCancelPost db uid rid now).2).tickets.length = _
      rw [hk.1, hshape.2.2, hissue]
      simp
      omega
    · show (iterCancel uid rid now k (reservationCancelPost db uid rid now).2).reservations.find? _ = _
      rw [hk.2]
      by_cases hke : k = 0 <;> simp [hke]

/-- C10: the cancel view checks no lifecycle status at all.  For a paid
direct-payment `TICKET`-plan reservation cancelled before the deadline,
every call succeeds with a fresh full-price ticket, the n-fold iteration
mints n tickets, and after any positive number of cancels the stored
reservation is already CANCELLED yet the next call still succeeds with yet
another ticket. -/
theorem cancel_without_state_precondition (db : DB) (uid rid : Nat) (now : Int)
    (r : Reservation) (n : Nat)
    (hfind : db.reservations.find? (fun x => decide (x.id = rid ∧ x.userId = uid)) = some r)
    (hnow : ¬ now > flatCancelDeadline r.reservation_date)
    (hpaid : r.paid_at ≠ none)
    (hplan : r.price_plan = "TICKET")
    (hd1 : r.stripe_payment_intent_id.startsWith "ticket_" = false)
    (hd2 : r.stripe_payment_intent_id.startsWith "subscription_" = false) :
    (reservationCancelPost db uid rid now).1 = CancelResp.cancelled true (some r.price_amount)
    ∧ (iterCancel uid rid now n db).tickets.length = db.tickets.length + n
    ∧ (n ≠ 0 → (iterCancel uid rid now n db).reservations.find?
          (fun x => decide (x.id = rid ∧ x.userId = uid))
          = some { r with status := RStatus.CANCELLED })
    ∧ (reservationCancelPost (iterCancel uid rid now n db) uid rid now).1
        = CancelResp.cancelled true (some r.price_amount) := by
  have hissue : r.shouldCreateTicket = true := by
    simp [Reservation.shouldCreateTicket, Reservation.isTicketPlan,
      Reservation.wasPaidWithTicket, Reservation.wasPaidWithSubscription,
      hd1, hd2, hplan, Option.isSome_iff_ne_none, hpaid]
  have haux := iter_cancel_aux uid rid now n db r hfind hnow hissue
  have h1 := cancel_post_shape db uid rid now r hfind hnow
  refine ⟨by simpa [hissue] using h1.1, haux.1, ?_, ?_⟩
  · intro hn
    simpa [hn] using haux.2
  · by_cases hn : n = 0
    · have hfind2 : (iterCancel uid rid now n db).reservations.find?
          (fun x => decide (x.id = rid ∧ x.userId = uid)) = some r := by
        simpa [hn] using haux.2
      have h2 := cancel_post_shape _ uid rid now r hfind2 hnow
      simpa [hissue] using h2.1
    · have hfind2 : (iterCancel uid rid now n db).reservations.find?
          (fun x => decide (x.id = rid ∧ x.userId = uid))
          = some { r with status := RStatus.CANCELLED } := by
        simpa [hn] using haux.2
      have h2 := cancel_post_shape _ uid rid now _ hfind2 hnow
      have hsame : ({ r with status := RStatus.CANCELLED } : Reservation).shouldCreateTicket
          = r.shouldCreateTicket := rfl
      rw [hsame, hissue] at h2
      simpa using h2.1

/-- Witness for C10: three successive cancels of the concrete paid
`TICKET`-plan reservation mint three tickets, and a fourth call would still
succeed with another full-price ticket. -/
theorem cancel_without_state_precondition_witness :
    (iterCancel 7 1 0 3 cancelDB).tickets.length = 3 ∧
    (reservationCancelPost (iterCancel 7 1 0 3 cancelDB) 7 1 0).1
      = CancelResp.cancelled true (some 35) :=
  have h := cancel_without_state_precondition cancelDB 7 1 0 sampleReservation 3 rfl
    (by decide) (by decide) rfl (by decide) (by decide)
  ⟨by simpa using h.2.1, h.2.2.2⟩


/-! ## Invitation single use (C6) -/

/-- C6 counterexample: after the invited user 9 materializes a reservation
from the ACCEPTED invitation, a second call fails with the not-found error
(the lookup filters on status ACCEPTED, which is now USED), not with the
claimed InvalidStateError; no further reservation is created. -/
theorem c6_materialize_twice_counterexample :
    (processInvitedUserPost (processInvitedUserPost acceptedInvitationDB 9 100).2 9 200).1
      = ProcessResp.notFound
    ∧ ProcessResp.notFound ≠ ProcessResp.invalidState
    ∧ (processInvitedUserPost (processInvitedUserPost acceptedInvitationDB 9 100).2 9 200).2.reservations.length
        = (processInvitedUserPost acceptedInvitationDB 9 100).2.reservations.length
    ∧ (processInvitedUserPost acceptedInvitationDB 9 100).1 = ProcessResp.created 10 := by
  decide

/-- C6 (amended): when exactly one ACCEPTED invitation is bound to the
caller, materialization creates exactly one new PENDING reservation owned
by the invited user cloning the inviter's activity, description, date,
time, venue, price plan, amount and currency, and marks the invitation
USED; a second call then fails with NotFoundError (not InvalidStateError)
and leaves the state unchanged. -/
theorem invitation_single_use (db : DB) (uid : Nat) (now : Int) (inv : FriendInvitation) (orig : Reservation)
    (hfilter : db.invitations.filter (fun i =>
        decide (i.invited_user = some uid ∧ i.status = IStatus.ACCEPTED)) = [inv])
    (horig : db.findReservation inv.reservationId = some orig) :
    (processInvitedUserPost db uid now).1 = ProcessResp.created db.nextReservationId
    ∧ (processInvitedUserPost db uid now).2.reservations
        = db.reservations ++ [materializedReservation db uid orig]
    ∧ ((materializedReservation db uid orig).userId = uid
       ∧ (materializedReservation db uid orig).status = RStatus.PENDING
       ∧ (materializedReservation db uid orig).activity_name = orig.activity_name
       ∧ (materializedReservation db uid orig).activity_description = orig.activity_description
       ∧ (materializedReservation db uid orig).reservation_date = orig.reservation_date
       ∧ (materializedReservation db uid orig).reservation_time = orig.reservation_time
       ∧ (materializedReservation db uid orig).venue_name = orig.venue_name
       ∧ (materializedReservation db uid orig).venue_address = orig.venue_address
       ∧ (materializedReservation db uid orig).price_plan = orig.price_plan
       ∧ (materializedReservation db uid orig).price_amount = orig.price_amount
       ∧ (materializedReservation db uid orig).currency = orig.currency)
    ∧ (∀ i ∈ (processInvitedUserPost db uid now).2.invitations,
        i.id = inv.id → i.status = IStatus.USED)
    ∧ (∀ now2, processInvitedUserPost (processInvitedUserPost db uid now).2 uid now2
        = (ProcessResp.notFound, (processInvitedUserPost db uid now).2)) := by
  have hmem : inv ∈ db.invitations ∧
      (inv.invited_user = some uid ∧ inv.status = IStatus.ACCEPTED) := by
    have : inv ∈ db.invitations.filter (fun i =>
        decide (i.invited_user = some uid ∧ i.status = IStatus.ACCEPTED)) := by
      rw [hfilter]; exact List.mem_singleton.2 rfl
    have h2 := List.mem_filter.1 this
    exact ⟨h2.1, by simpa using h2.2⟩
  have honly : ∀ i ∈ db.invitations,
      (i.invited_user = some uid ∧ i.status = IStatus.ACCEPTED) → i = inv := by
    intro i hi hp
    have : i ∈ db.invitations.filter (fun i =>
        decide (i.invited_user = some uid ∧ i.status = IStatus.ACCEPTED)) :=
      List.mem_filter.2 ⟨hi, by simpa using hp⟩
    rw [hfilter] at this
    exact List.mem_singleton.1 this
  have hcan : inv.canBeUsed = true := by
    unfold FriendInvitation.canBeUsed
    simp [hmem.2.1, hmem.2.2]
  have hpost : processInvitedUserPost db uid now
      = (ProcessResp.created db.nextReservationId,
         { db with
             reservations := db.reservations ++ [materializedReservation db uid orig],
             nextReservationId := db.nextReservationId + 1,
             invitations := db.invitations.map (fun i =>
               if i.id = inv.id then { inv with status := IStatus.USED, used_at := some now }
               else i) }) := by
    unfold processInvitedUserPost
    rw [hfilter]
    dsimp only
    rw [if_neg (by simp [hcan]), horig]
    rfl
  refine ⟨by rw [hpost], by rw [hpost],
    ⟨rfl, rfl, rfl, rfl, rfl, rfl, rfl, rfl, rfl, rfl, rfl⟩, ?_, ?_⟩
  · intro i hi hid
    rw [hpost] at hi
    dsimp at hi
    rcases List.mem_map.1 hi with ⟨x, hx, hxe⟩
    by_cases hxid : x.id = inv.id
    · rw [if_pos hxid] at hxe
      rw [← hxe]
    · rw [if_neg hxid] at hxe
      subst hxe
      exact absurd hid hxid
  · intro now2
    rw [hpost]
    have hnil : ((db.invitations.map (fun i =>
        if i.id = inv.id then { inv with status := IStatus.USED, used_at := some now }
        else i)).filter (fun i =>
        decide (i.invited_user = some uid ∧ i.status = IStatus.ACCEPTED))) = [] := by
      rw [List.filter_eq_nil_iff]
      intro a ha
      rcases List.mem_map.1 ha with ⟨x, hx, hxe⟩
      by_cases hxid : x.id = inv.id
      · rw [if_pos hxid] at hxe
        subst hxe
        simp
      · rw [if_neg hxid] at hxe
        subst hxe
        simp only [decide_eq_true_eq]
        intro hp
        exact hxid (by rw [honly x hx hp])
    unfold processInvitedUserPost
    dsimp only
    rw [hnil]


/-- Witness for the amended C6 theorem: the concrete second materialization
call returns not-found and changes nothing. -/
theorem invitation_single_use_witness :
    processInvitedUserPost (processInvitedUserPost acceptedInvitationDB 9 100).2 9 200
      = (ProcessResp.notFound, (processInvitedUserPost acceptedInvitationDB 9 100).2) :=
  (invitation_single_use acceptedInvitationDB 9 100 acceptedInvitation inviterReservation rfl rfl).2.2.2.2 200


/-! ## Idempotent settlement (C4) -/

/-- C4 counterexample: replaying the same local payment confirmation with
the same inline reservation payload creates a second CONFIRMED reservation
and a second ticket, so the final state after the second call differs from
the state after the first. -/
theorem c4_duplicate_confirmation_counterexample :
    ((confirmPaymentPost userOnlyDB 7 localPayReq 0).2.reservations.length = 1)
    ∧ ((confirmPaymentPost (confirmPaymentPost userOnlyDB 7 localPayReq 0).2 7 localPayReq 0).2.reservations.length = 2)
    ∧ (((confirmPaymentPost (confirmPaymentPost userOnlyDB 7 localPayReq 0).2 7 localPayReq 0).2.reservations.filter
        (fun r => decide (r.status = RStatus.CONFIRMED))).length = 2)
    ∧ ((confirmPaymentPost userOnlyDB 7 localPayReq 0).2.tickets.length = 1)
    ∧ ((confirmPaymentPost (confirmPaymentPost userOnlyDB 7 localPayReq 0).2 7 localPayReq 0).2.tickets.length = 2)
    ∧ (confirmPaymentPost (confirmPaymentPost userOnlyDB 7 localPayReq 0).2 7 localPayReq 0).2
        ≠ (confirmPaymentPost userOnlyDB 7 localPayReq 0).2 := by
  decide


/-- With no inline payload and no PENDING reservation left, the local
confirm branch is a pure not-found error. -/
theorem confirm_no_pending (db : DB) (uid : Nat) (req : ConfirmReq) (now : Int)
    (hintent : req.payment_intent_id = "pi_test_local_dev")
    (hstatus : req.status_payment = "succeeded")
    (hnodata : req.reservation_data = none)
    (hnil : db.reservations.filter (fun r =>
        decide (r.userId = uid ∧ r.status = RStatus.PENDING)) = []) :
    confirmPaymentPost db uid req now = (ConfirmResp.pendingNotFound, db) := by
  unfold confirmPaymentPost
  rw [hintent, hstatus, hnodata]
  rw [if_neg (by decide), if_pos (by exact ⟨rfl, rfl⟩)]
  dsimp only
  rw [hnil]
  rfl

/-- C4 (amended): re-delivery is harmless only on the payload-less path.
When the request carries no inline reservation payload and exactly one
PENDING reservation exists, the first call confirms it without creating a
ticket, and a second identical call fails with NotFoundError leaving the
state unchanged; with an inline payload each call creates a fresh
confirmed reservation (see the counterexample). -/
theorem confirm_payment_redelivery (db : DB) (uid : Nat) (req : ConfirmReq) (now : Int) (p : Reservation)
    (hintent : req.payment_intent_id = "pi_test_local_dev")
    (hstatus : req.status_payment = "succeeded")
    (hnodata : req.reservation_data = none)
    (hpend : db.reservations.filter (fun r =>
        decide (r.userId = uid ∧ r.status = RStatus.PENDING)) = [p]) :
    (confirmPaymentPost db uid req now).1 = ConfirmResp.confirmedExisting p.id
    ∧ (confirmPaymentPost db uid req now).2.tickets = db.tickets
    ∧ (∀ now2, confirmPaymentPost (confirmPaymentPost db uid req now).2 uid req now2
        = (ConfirmResp.pendingNotFound, (confirmPaymentPost db uid req now).2)) := by
  have hpmem : p ∈ db.reservations ∧ (p.userId = uid ∧ p.status = RStatus.PENDING) := by
    have : p ∈ db.reservations.filter (fun r =>
        decide (r.userId = uid ∧ r.status = RStatus.PENDING)) := by
      rw [hpend]; exact List.mem_singleton.2 rfl
    have h2 := List.mem_filter.1 this
    exact ⟨h2.1, by simpa using h2.2⟩
  have honly : ∀ x ∈ db.reservations, (x.userId = uid ∧ x.status = RStatus.PENDING) → x = p := by
    intro x hx hp
    have : x ∈ db.reservations.filter (fun r =>
        decide (r.userId = uid ∧ r.status = RStatus.PENDING)) :=
      List.mem_filter.2 ⟨hx, by simpa using hp⟩
    rw [hpend] at this
    exact List.mem_singleton.1 this
  have hpost : confirmPaymentPost db uid req now
      = (ConfirmResp.confirmedExisting p.id,
         { db with reservations := db.reservations.map (fun x =>
             if x.id = p.id
             then { p with status := RStatus.CONFIRMED, paid_at := some now,
                           stripe_payment_intent_id := req.payment_intent_id }
             else x) }) := by
    unfold confirmPaymentPost
    rw [hintent, hstatus, hnodata]
    rw [if_neg (by decide), if_pos (by exact ⟨rfl, rfl⟩)]
    dsimp only
    rw [hpend]
    rfl
  refine ⟨by rw [hpost], by rw [hpost], ?_⟩
  intro now2
  have hnil : (((confirmPaymentPost db uid req now).2).reservations.filter (fun r =>
      decide (r.userId = uid ∧ r.status = RStatus.PENDING))) = [] := by
    rw [hpost]
    dsimp only
    rw [List.filter_eq_nil_iff]
    intro a ha
    rcases List.mem_map.1 ha with ⟨x, hx, hxe⟩
    by_cases hxid : x.id = p.id
    · rw [if_pos hxid] at hxe
      subst hxe
      simp
    · rw [if_neg hxid] at hxe
      subst hxe
      simp only [decide_eq_true_eq]
      intro hp
      exact hxid (by rw [honly x hx hp])
  exact confirm_no_pending _ uid req now2 hintent hstatus hnodata hnil


/-- Witness for the amended C4 theorem: the concrete second payload-less
call returns not-found and changes nothing. -/
theorem confirm_payment_redelivery_witness :
    confirmPaymentPost (confirmPaymentPost pendingDB 7 noPayloadReq 5).2 7 noPayloadReq 6
      = (ConfirmResp.pendingNotFound, (confirmPaymentPost pendingDB 7 noPayloadReq 5).2) :=
  (confirm_payment_redelivery pendingDB 7 noPayloadReq 5 pendingReservation rfl rfl rfl rfl).2.2 6


/-! ## Manual group creation validation (C8) -/

/-- C8 counterexample: selecting ids 1 and 2 (CONFIRMED, same date but
different activities) together with the missing id 3 does not fail: the
group is created with `max_participants = 3` and only two memberships, so
neither missing ids nor activity homogeneity are validated. -/
theorem c8_group_validation_counterexample :
    (createGroupPost groupDB groupReqABM).1 = GroupResp.created 50
    ∧ (3 ∈ groupReqABM.selected_reservations)
    ∧ groupDB.findReservation 3 = none
    ∧ groupResA.activity_name ≠ groupResB.activity_name
    ∧ (createGroupPost groupDB groupReqABM).2.memberships.length = 2
    ∧ (createGroupPost groupDB groupReqABM).2.groups.map EventGroup.max_participants = [3] := by
  decide

/-- The Django `first()` fold keeps an element of the list. -/
theorem foldl_min_mem (t : List Reservation) : ∀ a : Reservation,
    t.foldl (fun best x =>
      if x.reservation_date < best.reservation_date ∨
         (x.reservation_date = best.reservation_date ∧ x.reservation_time < best.reservation_time)
      then x else best) a ∈ a :: t := by
  induction t with
  | nil => intro a; simp
  | cons b t ih =>
    intro a
    simp only [List.foldl_cons]
    by_cases hc : (b.reservation_date < a.reservation_date ∨
        (b.reservation_date = a.reservation_date ∧ b.reservation_time < a.reservation_time))
    · rw [if_pos hc]
      rcases List.mem_cons.1 (ih b) with h | h
      · exact List.mem_cons.2 (Or.inr (List.mem_cons.2 (Or.inl h)))
      · exact List.mem_cons.2 (Or.inr (List.mem_cons.2 (Or.inr h)))
    · rw [if_neg hc]
      rcases List.mem_cons.1 (ih a) with h | h
      · exact List.mem_cons.2 (Or.inl h)
      · exact List.mem_cons.2 (Or.inr (List.mem_cons.2 (Or.inr h)))

/-- `first()` of a queryset yields one of its rows. -/
theorem djangoFirst_mem {l : List Reservation} {f : Reservation}
    (h : djangoFirstReservation l = some f) : f ∈ l := by
  cases l with
  | nil => simp [djangoFirstReservation] at h
  | cons a t =>
    unfold djangoFirstReservation at h
    injection h with h
    rw [← h]
    exact foldl_min_mem t a

/-- `first()` is `none` exactly on the empty queryset. -/
theorem djangoFirst_none {l : List Reservation} :
    djangoFirstReservation l = none ↔ l = [] := by
  cases l <;> simp [djangoFirstReservation]

/-- C8 (amended): with a name and meeting point supplied, manual group
creation succeeds iff the id set is non-empty, at least one selected id is
a CONFIRMED reservation, and the matched CONFIRMED reservations all share
one date; missing or non-CONFIRMED ids are silently dropped and activities
are not validated; on success exactly one group is created whose
`max_participants` is the raw id-list length, with one membership per
matched reservation; on failure the state is unchanged. -/
theorem manual_group_creation (db : DB) (req : GroupReq)
    (hname : ¬ req.name = "") (hmp : ¬ req.meeting_point_name = "") :
    ((createGroupPost db req).1 = GroupResp.created db.nextGroupId ↔
      (req.selected_reservations ≠ [] ∧ groupFound db req ≠ [] ∧
        ∀ r ∈ groupFound db req, ∀ r2 ∈ groupFound db req,
          r.reservation_date = r2.reservation_date))
    ∧ ((createGroupPost db req).1 = GroupResp.created db.nextGroupId →
        (createGroupPost db req).2.memberships
            = db.memberships ++ (groupFound db req).map (fun r =>
                { reservationId := r.id, groupId := db.nextGroupId })
        ∧ ∃ g : EventGroup, (createGroupPost db req).2.groups = db.groups ++ [g]
            ∧ g.id = db.nextGroupId
            ∧ g.max_participants = req.selected_reservations.length)
    ∧ ((createGroupPost db req).1 ≠ GroupResp.created db.nextGroupId →
        (createGroupPost db req).2 = db) := by
  unfold createGroupPost
  rw [if_neg hname, if_neg hmp]
  by_cases hsel : req.selected_reservations = []
  · rw [if_pos hsel]
    refine ⟨?_, ?_, fun _ => rfl⟩
    · simp [hsel]
    · intro h
      exact absurd h (by simp)
  · rw [if_neg hsel]
    dsimp only
    cases hfst : djangoFirstReservation (groupFound db req) with
    | none =>
      dsimp only
      refine ⟨?_, ?_, fun _ => rfl⟩
      · have hempty : groupFound db req = [] := djangoFirst_none.1 hfst
        simp [hempty]
      · intro h
        exact absurd h (by simp)
    | some first =>
      dsimp only
      have hfmem := djangoFirst_mem hfst
      by_cases hall : (groupFound db req).all
          (fun r => decide (r.reservation_date = first.reservation_date)) = true
      · rw [if_neg (by rw [hall]; simp)]
        dsimp only
        refine ⟨?_, ?_, ?_⟩
        · constructor
          · intro _
            refine ⟨hsel, ?_, ?_⟩
            · intro hemp
              rw [hemp] at hfmem
              cases hfmem
            · intro r hr r2 hr2
              have h1 := List.all_eq_true.1 hall r hr
              have h2 := List.all_eq_true.1 hall r2 hr2
              simp at h1 h2
              rw [h1, h2]
          · intro _
            rfl
        · intro _
          exact ⟨rfl, _, rfl, rfl, rfl⟩
        · intro h
          exact absurd rfl h
      · rw [if_pos hall]
        dsimp only
        refine ⟨?_, ?_, fun _ => rfl⟩
        · constructor
          · intro hcontra
            exact absurd hcontra (by simp)
          · rintro ⟨h1, h2, hpair⟩
            exfalso
            apply hall
            rw [List.all_eq_true]
            intro r hr
            simp only [decide_eq_true_eq]
            exact hpair r hr first hfmem
        · intro h
          exact absurd h (by simp)

/-- Witness for the amended C8 theorem: the concrete mixed-validity request
succeeds and appends exactly the memberships of the two matched rows. -/
theorem manual_group_creation_witness :
    (createGroupPost groupDB groupReqABM).1 = GroupResp.created 50
    ∧ (createGroupPost groupDB groupReqABM).2.memberships
        = groupDB.memberships ++ (groupFound groupDB groupReqABM).map (fun r =>
            { reservationId := r.id, groupId := 50 }) := by
  have h := manual_group_creation groupDB groupReqABM (by decide) (by decide)
  have hs : (createGroupPost groupDB groupReqABM).1 = GroupResp.created groupDB.nextGroupId :=
    h.1.mpr (by decide)
  exact ⟨hs, (h.2.1 hs).1⟩


/-! ## Group capacity invariant (C9) -/

/-- A conjunctive filter never keeps more rows than its first conjunct. -/
theorem length_filter_and_le {α : Type} (l : List α) (p q : α → Bool) :
    (l.filter (fun a => p a && q a)).length ≤ (l.filter p).length := by
  induction l with
  | nil => simp
  | cons a t ih =>
    by_cases hp : p a = true <;> by_cases hq : q a = true <;>
      simp [List.filter_cons, hp, hq] <;> omega

/-- `participants_count` never exceeds the raw membership count. -/
theorem participants_le_membership (db : DB) (gid : Nat) :
    db.participantsCount gid ≤ db.membershipCount gid := by
  unfold DB.participantsCount DB.membershipCount
  exact length_filter_and_le db.memberships _ _

/-- The capacity invariant only reads groups and memberships. -/
theorem capacityOK_transfer {db db2 : DB} (hg : db2.groups = db.groups)
    (hm : db2.memberships = db.memberships) (h : db.capacityOK) : db2.capacityOK := by
  intro g hgm
  unfold DB.membershipCount
  rw [hm]
  exact h g (by rwa [hg] at hgm)

/-- A pointwise id-preserving rewrite keeps the id column. -/
theorem map_id_of_update (l : List Reservation) (f : Reservation → Reservation)
    (hf : ∀ x, (f x).id = x.id) :
    (l.map f).map Reservation.id = l.map Reservation.id := by
  induction l with
  | nil => rfl
  | cons a t ih =>
    simp only [List.map_cons]
    rw [ih, hf]

/-- Filling the deadline default does not change the primary key. -/
theorem applySaveDefault_id (r : Reservation) : (r.applySaveDefault).id = r.id := by
  unfold Reservation.applySaveDefault
  cases r.cancellation_deadline <;> rfl

/-- The primary-key discipline survives any shape-preserving request. -/
theorem WF_of_shape {db db2 : DB} (h1 : db2.groups = db.groups)
    (h2 : db2.memberships = db.memberships) (h3 : db2.nextGroupId = db.nextGroupId)
    (h4 : (db2.reservations.map Reservation.id = db.reservations.map Reservation.id
            ∧ db2.nextReservationId = db.nextReservationId)
        ∨ (db2.reservations.map Reservation.id
            = db.reservations.map Reservation.id ++ [db.nextReservationId]
            ∧ db2.nextReservationId = db.nextReservationId + 1))
    (hwf : db.WF) : db2.WF := by
  obtain ⟨hnd, hbound, hgb, hmb⟩ := hwf
  have hidbound : ∀ i ∈ db.reservations.map Reservation.id, i < db.nextReservationId := by
    intro i hi
    rcases List.mem_map.1 hi with ⟨r, hr, rfl⟩
    exact hbound r hr
  refine ⟨?_, ?_, ?_, ?_⟩
  · rcases h4 with ⟨he, _⟩ | ⟨he, _⟩
    · rw [he]; exact hnd
    · rw [he]
      rw [List.nodup_append]
      refine ⟨hnd, List.nodup_singleton _, ?_⟩
      intro i hi hmemb
      have := hidbound i hi
      have : i = db.nextReservationId := by simpa using hmemb
      omega
  · intro r hr
    have hrid : r.id ∈ db2.reservations.map Reservation.id := List.mem_map_of_mem _ hr
    rcases h4 with ⟨he, hn⟩ | ⟨he, hn⟩
    · rw [he] at hrid
      rw [hn]
      exact hidbound _ hrid
    · rw [he] at hrid
      rw [hn]
      rcases List.mem_append.1 hrid with h | h
      · have := hidbound _ h
        omega
      · have : r.id = db.nextReservationId := by simpa using h
        omega
  · intro g hg
    rw [h3]
    exact hgb g (by rwa [h1] at hg)
  · intro m hm
    rw [h3]
    exact hmb m (by rwa [h2] at hm)

/-- Releasing a subscription only touches the subscriptions table. -/
theorem release_shape (db : DB) (uid rid : Nat) :
    (db.releaseSubscriptionFor uid rid).groups = db.groups
    ∧ (db.releaseSubscriptionFor uid rid).memberships = db.memberships
    ∧ (db.releaseSubscriptionFor uid rid).nextGroupId = db.nextGroupId
    ∧ (db.releaseSubscriptionFor uid rid).nextReservationId = db.nextReservationId
    ∧ (db.releaseSubscriptionFor uid rid).reservations = db.reservations := by
  unfold DB.releaseSubscriptionFor
  cases hf : db.subscriptions.reverse.find? (fun s =>
      decide (s.userId = uid ∧ s.current_reservation = some rid)) <;>
    exact ⟨rfl, rfl, rfl, rfl, rfl⟩

/-- `update_subscription_status` only touches the users table. -/
theorem updateSubStatus_shape (db : DB) (uid : Nat) (now : Int) :
    (db.updateSubscriptionStatusOf uid now).groups = db.groups
    ∧ (db.updateSubscriptionStatusOf uid now).memberships = db.memberships
    ∧ (db.updateSubscriptionStatusOf uid now).nextGroupId = db.nextGroupId
    ∧ (db.updateSubscriptionStatusOf uid now).nextReservationId = db.nextReservationId
    ∧ (db.updateSubscriptionStatusOf uid now).reservations = db.reservations := by
  unfold DB.updateSubscriptionStatusOf
  cases db.getActiveSubscription uid now <;>
    exact ⟨rfl, rfl, rfl, rfl, rfl⟩

/-- The cancel view is shape-preserving. -/
theorem cancel_shape (db : DB) (uid rid : Nat) (now : Int) :
    ShapePreserved db (reservationCancelPost db uid rid now).2 := by
  unfold reservationCancelPost
  cases hf : db.reservations.find? (fun r => decide (r.id = rid ∧ r.userId = uid)) with
  | none => exact ⟨rfl, rfl, rfl, Or.inl ⟨rfl, rfl⟩⟩
  | some r =>
    dsimp only
    split
    · exact ⟨rfl, rfl, rfl, Or.inl ⟨rfl, rfl⟩⟩
    · have hid : ∀ x : Reservation,
          (if x.id = r.id then { r with status := RStatus.CANCELLED } else x).id = x.id := by
        intro x
        by_cases h : x.id = r.id
        · rw [if_pos h]
          show r.id = x.id
          omega
        · rw [if_neg h]
      have hmap := map_id_of_update db.reservations _ hid
      by_cases hsub : (r.paid_at.isSome && r.wasPaidWithSubscription) = true <;>
        by_cases hissue : r.shouldCreateTicket = true <;>
        refine ⟨?_, ?_, ?_, Or.inl ⟨?_, ?_⟩⟩ <;>
        simp [hsub, hissue, DB.saveReservationCancelled,
          (release_shape db uid r.id).1, (release_shape db uid r.id).2.1,
          (release_shape db uid r.id).2.2.1, (release_shape db uid r.id).2.2.2.1,
          (release_shape db uid r.id).2.2.2.2, hmap, hid]

/-- Groups are unchanged by `update_subscription_status`. -/
theorem usus_groups (db : DB) (uid : Nat) (now : Int) :
    (db.updateSubscriptionStatusOf uid now).groups = db.groups :=
  (updateSubStatus_shape db uid now).1

/-- Memberships are unchanged by `update_subscription_status`. -/
theorem usus_memberships (db : DB) (uid : Nat) (now : Int) :
    (db.updateSubscriptionStatusOf uid now).memberships = db.memberships :=
  (updateSubStatus_shape db uid now).2.1

/-- The group counter is unchanged by `update_subscription_status`. -/
theorem usus_nextGroupId (db : DB) (uid : Nat) (now : Int) :
    (db.updateSubscriptionStatusOf uid now).nextGroupId = db.nextGroupId :=
  (updateSubStatus_shape db uid now).2.2.1

/-- The reservation counter is unchanged by `update_subscription_status`. -/
theorem usus_nextReservationId (db : DB) (uid : Nat) (now : Int) :
    (db.updateSubscriptionStatusOf uid now).nextReservationId = db.nextReservationId :=
  (updateSubStatus_shape db uid now).2.2.2.1

/-- Reservations are unchanged by `update_subscription_status`. -/
theorem usus_reservations (db : DB) (uid : Nat) (now : Int) :
    (db.updateSubscriptionStatusOf uid now).reservations = db.reservations :=
  (updateSubStatus_shape db uid now).2.2.2.2

/-- The payload-created reservation carries the fresh auto-increment id. -/
theorem confirmCreated_id (db : DB) (uid : Nat) (req : ConfirmReq) (rd : ReservationData) (now : Int) :
    (confirmCreatedReservation db uid req rd now).id = db.nextReservationId := by
  unfold confirmCreatedReservation
  rw [applySaveDefault_id]

/-- The payment-confirmation view is shape-preserving. -/
theorem confirm_shape (db : DB) (uid : Nat) (req : ConfirmReq) (now : Int) :
    ShapePreserved db (confirmPaymentPost db uid req now).2 := by
  unfold confirmPaymentPost
  split
  · exact ⟨rfl, rfl, rfl, Or.inl ⟨rfl, rfl⟩⟩
  · split
    · cases hdata : req.reservation_data with
      | some rd =>
        dsimp only
        by_cases hplan : rd.price_plan = "ticket"
        · rw [if_pos hplan]
          refine ⟨?_, ?_, ?_, Or.inr ⟨?_, ?_⟩⟩
          · rw [usus_groups]
          · rw [usus_memberships]
          · rw [usus_nextGroupId]
          · rw [usus_reservations]
            simp [confirmCreated_id]
          · rw [usus_nextReservationId]
        · rw [if_neg hplan]
          refine ⟨rfl, rfl, rfl, Or.inr ⟨?_, rfl⟩⟩
          simp [confirmCreated_id]
      | none =>
        dsimp only
        cases hlast : (db.reservations.filter (fun r =>
            decide (r.userId = uid ∧ r.status = RStatus.PENDING))).getLast? with
        | none => exact ⟨rfl, rfl, rfl, Or.inl ⟨rfl, rfl⟩⟩
        | some p =>
          dsimp only
          refine ⟨rfl, rfl, rfl, Or.inl ⟨?_, rfl⟩⟩
          refine map_id_of_update db.reservations _ ?_
          intro x
          by_cases h : x.id = p.id
          · rw [if_pos h]
            show p.id = x.id
            omega
          · rw [if_neg h]
    · exact ⟨rfl, rfl, rfl, Or.inl ⟨rfl, rfl⟩⟩

/-- The invitation-acceptance view is shape-preserving. -/
theorem accept_shape (db : DB) (tok : String) (req : AcceptReq) (now : Int) :
    ShapePreserved db (acceptInvitationPost db tok req now).2 := by
  unfold acceptInvitationPost
  cases hf : db.invitations.find? (fun i => decide (i.invitation_token = tok)) with
  | none => exact ⟨rfl, rfl, rfl, Or.inl ⟨rfl, rfl⟩⟩
  | some inv =>
    dsimp only
    split
    · exact ⟨rfl, rfl, rfl, Or.inl ⟨rfl, rfl⟩⟩
    · split
      · exact ⟨rfl, rfl, rfl, Or.inl ⟨rfl, rfl⟩⟩
      · split
        · exact ⟨rfl, rfl, rfl, Or.inl ⟨rfl, rfl⟩⟩
        · cases hu : db.users.find? (fun u => decide (u.email = req.email)) with
          | none => exact ⟨rfl, rfl, rfl, Or.inl ⟨rfl, rfl⟩⟩
          | some u =>
            dsimp only
            split
            · exact ⟨rfl, rfl, rfl, Or.inl ⟨rfl, rfl⟩⟩
            · split <;> exact ⟨rfl, rfl, rfl, Or.inl ⟨rfl, rfl⟩⟩

/-- The materialized clone carries the fresh auto-increment id. -/
theorem materializedReservation_id (db : DB) (uid : Nat) (orig : Reservation) :
    (materializedReservation db uid orig).id = db.nextReservationId := by
  unfold materializedReservation
  rw [applySaveDefault_id]

/-- The materialization view is shape-preserving. -/
theorem materialize_shape (db : DB) (uid : Nat) (now : Int) :
    ShapePreserved db (processInvitedUserPost db uid now).2 := by
  unfold processInvitedUserPost
  split
  · exact ⟨rfl, rfl, rfl, Or.inl ⟨rfl, rfl⟩⟩
  · split
    · exact ⟨rfl, rfl, rfl, Or.inl ⟨rfl, rfl⟩⟩
    · split
      · exact ⟨rfl, rfl, rfl, Or.inl ⟨rfl, rfl⟩⟩
      · refine ⟨rfl, rfl, rfl, Or.inr ⟨?_, rfl⟩⟩
        simp [materializedReservation_id]
  · exact ⟨rfl, rfl, rfl, Or.inl ⟨rfl, rfl⟩⟩

/-- The subscription-reservation view is shape-preserving. -/
theorem subres_shape (db : DB) (uid : Nat) (req : SubReservationReq) (now : Int) :
    ShapePreserved db (createReservationWithSubscriptionPost db uid req now).2 := by
  unfold createReservationWithSubscriptionPost
  cases hs : db.getActiveSubscription uid now with
  | none => exact ⟨rfl, rfl, rfl, Or.inl ⟨rfl, rfl⟩⟩
  | some sub =>
    dsimp only
    split
    · exact ⟨rfl, rfl, rfl, Or.inl ⟨rfl, rfl⟩⟩
    · cases hd : req.reservation_date with
      | none => exact ⟨rfl, rfl, rfl, Or.inl ⟨rfl, rfl⟩⟩
      | some d =>
        dsimp only
        refine ⟨rfl, rfl, rfl, Or.inr ⟨?_, rfl⟩⟩
        simp [applySaveDefault_id]

/-- Inserting an invitation is shape-preserving. -/
theorem invite_shape (db : DB) (inv : FriendInvitation) :
    ShapePreserved db { db with invitations := db.invitations ++ [inv],
                                nextInvitationId := db.nextInvitationId + 1 } :=
  ⟨rfl, rfl, rfl, Or.inl ⟨rfl, rfl⟩⟩

/-- Under distinct primary keys, at most one matched reservation per
supplied id, so the matched set is no larger than the id list. -/
theorem found_length_le (db : DB) (req : GroupReq)
    (hnd : (db.reservations.map Reservation.id).Nodup) :
    (groupFound db req).length ≤ req.selected_reservations.length := by
  have hsub : List.Sublist (groupFound db req) db.reservations := List.filter_sublist _
  have h1 : ((groupFound db req).map Reservation.id).Nodup :=
    hnd.sublist (hsub.map Reservation.id)
  have h2 : (groupFound db req).map Reservation.id ⊆ req.selected_reservations := by
    intro a ha
    rcases List.mem_map.1 ha with ⟨x, hx, rfl⟩
    have hp := (List.mem_filter.1 hx).2
    simp only [decide_eq_true_eq] at hp
    exact hp.1
  have := (List.subperm_of_subset h1 h2).length_le
  simpa using this

/-- Manual group creation preserves the primary-key discipline and the
capacity invariant: the new group holds one membership per matched
reservation, at most the raw id-list length, which is its capacity. -/
theorem createGroup_preserves (db : DB) (req : GroupReq)
    (hwf : db.WF) (hcap : db.capacityOK) :
    ((createGroupPost db req).2).WF ∧ ((createGroupPost db req).2).capacityOK := by
  obtain ⟨hnd, hrb, hgb, hmb⟩ := hwf
  unfold createGroupPost
  split
  · exact ⟨⟨hnd, hrb, hgb, hmb⟩, hcap⟩
  · split
    · exact ⟨⟨hnd, hrb, hgb, hmb⟩, hcap⟩
    · split
      · exact ⟨⟨hnd, hrb, hgb, hmb⟩, hcap⟩
      · dsimp only
        cases hfst : djangoFirstReservation (groupFound db req) with
        | none => exact ⟨⟨hnd, hrb, hgb, hmb⟩, hcap⟩
        | some first =>
          dsimp only
          split
          · exact ⟨⟨hnd, hrb, hgb, hmb⟩, hcap⟩
          · constructor
            · refine ⟨hnd, hrb, ?_, ?_⟩
              · intro g hg
                show g.id < db.nextGroupId + 1
                rcases List.mem_append.1 hg with h | h
                · have := hgb g h
                  omega
                · rcases List.mem_singleton.1 h with rfl
                  show db.nextGroupId < db.nextGroupId + 1
                  omega
              · intro m hm
                show m.groupId < db.nextGroupId + 1
                rcases List.mem_append.1 hm with h | h
                · have := hmb m h
                  omega
                · rcases List.mem_map.1 h with ⟨x, hx, rfl⟩
                  show db.nextGroupId < db.nextGroupId + 1
                  omega
            · intro g hg
              unfold DB.membershipCount
              show (List.filter (fun m => decide (m.groupId = g.id))
                  (db.memberships ++ (groupFound db req).map (fun r =>
                    ({ reservationId := r.id, groupId := db.nextGroupId } : GroupMembership)))).length
                ≤ g.max_participants
              rw [List.filter_append]
              rcases List.mem_append.1 hg with h | h
              · have hgid := hgb g h
                have hnew : (List.filter (fun m => decide (m.groupId = g.id))
                    ((groupFound db req).map (fun r =>
                      ({ reservationId := r.id, groupId := db.nextGroupId } : GroupMembership)))) = [] := by
                  rw [List.filter_eq_nil_iff]
                  intro a ha
                  rcases List.mem_map.1 ha with ⟨x, hx, rfl⟩
                  simp only [decide_eq_true_eq]
                  omega
                rw [hnew]
                simp only [List.append_nil]
                exact hcap g h
              · rcases List.mem_singleton.1 h with rfl
                have hold : (List.filter (fun m =>
                    decide (m.groupId = db.nextGroupId)) db.memberships) = [] := by
                  rw [List.filter_eq_nil_iff]
                  intro a ha
                  have := hmb a ha
                  simp only [decide_eq_true_eq]
                  omega
                have hnew : (List.filter (fun m => decide (m.groupId = db.nextGroupId))
                    ((groupFound db req).map (fun r =>
                      ({ reservationId := r.id, groupId := db.nextGroupId } : GroupMembership)))) =
                    (groupFound db req).map (fun r =>
                      ({ reservationId := r.id, groupId := db.nextGroupId } : GroupMembership)) := by
                  rw [List.filter_eq_self]
                  intro a ha
                  rcases List.mem_map.1 ha with ⟨x, hx, rfl⟩
                  simp
                rw [hold, hnew]
                simp only [List.nil_append, List.length_map]
                exact found_length_le db req hnd

/-- Shape-preserving requests preserve both invariants. -/
theorem shape_preserves {db db2 : DB} (hsh : ShapePreserved db db2)
    (hwf : db.WF) (hcap : db.capacityOK) : db2.WF ∧ db2.capacityOK := by
  obtain ⟨h1, h2, h3, h4⟩ := hsh
  exact ⟨WF_of_shape h1 h2 h3 h4 hwf, capacityOK_transfer h1 h2 hcap⟩

/-- Every modelled request preserves the invariants. -/
theorem step_preserves {db db2 : DB} (hstep : Step db db2)
    (hwf : db.WF) (hcap : db.capacityOK) : db2.WF ∧ db2.capacityOK := by
  cases hstep with
  | cancel uid rid now => exact shape_preserves (cancel_shape db uid rid now) hwf hcap
  | confirmPayment uid req now => exact shape_preserves (confirm_shape db uid req now) hwf hcap
  | createGroup req => exact createGroup_preserves db req hwf hcap
  | acceptInvitation tok req now => exact shape_preserves (accept_shape db tok req now) hwf hcap
  | materialize uid now => exact shape_preserves (materialize_shape db uid now) hwf hcap
  | subscriptionReserve uid req now =>
    exact shape_preserves (subres_shape db uid req now) hwf hcap
  | invite inviterId email r message token now inv hinv =>
    exact shape_preserves (invite_shape db inv) hwf hcap

/-- The empty database satisfies the primary-key discipline. -/
theorem empty_WF : DB.empty.WF := by
  refine ⟨List.nodup_nil, ?_, ?_, ?_⟩ <;> intro x hx <;> cases hx

/-- The empty database satisfies the capacity invariant. -/
theorem empty_capacityOK : DB.empty.capacityOK := by
  intro g hg
  cases hg

/-- C9: in every state reachable from the empty database by the modelled
requests, every group has `participants_count` (confirmed memberships) at
most `max_participants`, both immediately after group creation and after
any cancellations. -/
theorem group_capacity_invariant (db : DB) (hreach : Reachable db) :
    ∀ g ∈ db.groups, db.participantsCount g.id ≤ g.max_participants := by
  have main : db.WF ∧ db.capacityOK := by
    induction hreach with
    | refl => exact ⟨empty_WF, empty_capacityOK⟩
    | tail hsteps hstep ih => exact step_preserves hstep ih.1 ih.2
  intro g hg
  exact le_trans (participants_le_membership db g.id) (main.2 g hg)

/-- Witness for C9: a concrete two-request run (one confirmed payment,
then a manual group of that one reservation) reaches a state where the
created group holds one confirmed participant within its capacity 1. -/
theorem group_capacity_invariant_witness : reachFinalDB.participantsCount 0 ≤ 1 := by
  have hre : Reachable reachFinalDB :=
    Relation.ReflTransGen.tail
      (Relation.ReflTransGen.tail Relation.ReflTransGen.refl
        (Step.confirmPayment DB.empty 7 reachPayReq 0))
      (Step.createGroup (confirmPaymentPost DB.empty 7 reachPayReq 0).2 reachGroupReq)
  exact group_capacity_invariant reachFinalDB hre
    { id := 0, name := "G", event_date := 3, activity_name := "Bowling",
      meeting_point_name := "M", meeting_point_address := "", meeting_time := 72000,
      max_participants := 1, is_confirmed := true } (by decide)

end Evenlyf
